import Mathlib

/-!
Verification of the paasta configuration-resolution engine
(`src/paasta_tools/util/config_loading.py`) against its natural-language
specification.

The Python code is shallowly embedded: untyped JSON/YAML documents become the
inductive `Value`, Python `dict`s become association lists (Python 3.7+ dicts
are ordered, so a list of pairs is a faithful model), fallible code returns
`Except ConfigError`, and all filesystem access is routed through explicit
record-of-functions parameters (`PaastaFs` for os-level access of the system
config loader, `SoaFs` for the external `service_configuration_lib`
collaborator).  Repository code that is imported by `config_loading.py` but
not among the shown sources (`paasta_tools.util.deep_merge`,
`paasta_tools.util.const`, `paasta_tools.util.names`) is modelled from the
spec; each such definition carries a doc comment starting
`Modelled from the spec:`.
-/

/-- An untyped JSON/YAML document value.  Python numbers are modelled as `Int`
(the claims under verification exercise no float arithmetic); Python `None` is
`vNull`; mappings are ordered association lists, as Python dicts are. -/
inductive Value where
  | vNull : Value
  | vBool : Bool → Value
  | vInt : Int → Value
  | vStr : String → Value
  | vList : List Value → Value
  | vDict : List (String × Value) → Value
deriving Repr

mutual

/-- Structural equality on values is decidable (Python `==`). -/
def Value.decEq : (a b : Value) → Decidable (a = b)
  | .vNull, .vNull => isTrue rfl
  | .vNull, .vBool _ => isFalse (fun h => Value.noConfusion h)
  | .vNull, .vInt _ => isFalse (fun h => Value.noConfusion h)
  | .vNull, .vStr _ => isFalse (fun h => Value.noConfusion h)
  | .vNull, .vList _ => isFalse (fun h => Value.noConfusion h)
  | .vNull, .vDict _ => isFalse (fun h => Value.noConfusion h)
  | .vBool _, .vNull => isFalse (fun h => Value.noConfusion h)
  | .vBool a, .vBool b =>
      if h : a = b then isTrue (by rw [h]) else
        isFalse (fun hh => by injection hh; contradiction)
  | .vBool _, .vInt _ => isFalse (fun h => Value.noConfusion h)
  | .vBool _, .vStr _ => isFalse (fun h => Value.noConfusion h)
  | .vBool _, .vList _ => isFalse (fun h => Value.noConfusion h)
  | .vBool _, .vDict _ => isFalse (fun h => Value.noConfusion h)
  | .vInt _, .vNull => isFalse (fun h => Value.noConfusion h)
  | .vInt _, .vBool _ => isFalse (fun h => Value.noConfusion h)
  | .vInt a, .vInt b =>
      if h : a = b then isTrue (by rw [h]) else
        isFalse (fun hh => by injection hh; contradiction)
  | .vInt _, .vStr _ => isFalse (fun h => Value.noConfusion h)
  | .vInt _, .vList _ => isFalse (fun h => Value.noConfusion h)
  | .vInt _, .vDict _ => isFalse (fun h => Value.noConfusion h)
  | .vStr _, .vNull => isFalse (fun h => Value.noConfusion h)
  | .vStr _, .vBool _ => isFalse (fun h => Value.noConfusion h)
  | .vStr _, .vInt _ => isFalse (fun h => Value.noConfusion h)
  | .vStr a, .vStr b =>
      if h : a = b then isTrue (by rw [h]) else
        isFalse (fun hh => by injection hh; contradiction)
  | .vStr _, .vList _ => isFalse (fun h => Value.noConfusion h)
  | .vStr _, .vDict _ => isFalse (fun h => Value.noConfusion h)
  | .vList _, .vNull => isFalse (fun h => Value.noConfusion h)
  | .vList _, .vBool _ => isFalse (fun h => Value.noConfusion h)
  | .vList _, .vInt _ => isFalse (fun h => Value.noConfusion h)
  | .vList _, .vStr _ => isFalse (fun h => Value.noConfusion h)
  | .vList as, .vList bs =>
      match Value.decEqList as bs with
      | isTrue h => isTrue (by rw [h])
      | isFalse h => isFalse (fun hh => by injection hh; contradiction)
  | .vList _, .vDict _ => isFalse (fun h => Value.noConfusion h)
  | .vDict _, .vNull => isFalse (fun h => Value.noConfusion h)
  | .vDict _, .vBool _ => isFalse (fun h => Value.noConfusion h)
  | .vDict _, .vInt _ => isFalse (fun h => Value.noConfusion h)
  | .vDict _, .vStr _ => isFalse (fun h => Value.noConfusion h)
  | .vDict _, .vList _ => isFalse (fun h => Value.noConfusion h)
  | .vDict ad, .vDict bd =>
      match Value.decEqPairs ad bd with
      | isTrue h => isTrue (by rw [h])
      | isFalse h => isFalse (fun hh => by injection hh; contradiction)

/-- Decidable equality of lists of values. -/
def Value.decEqList : (a b : List Value) → Decidable (a = b)
  | [], [] => isTrue rfl
  | [], _ :: _ => isFalse (fun h => List.noConfusion h)
  | _ :: _, [] => isFalse (fun h => List.noConfusion h)
  | a :: as, b :: bs =>
      match Value.decEq a b, Value.decEqList as bs with
      | isTrue h1, isTrue h2 => isTrue (by rw [h1, h2])
      | isFalse h1, _ => isFalse (fun hh => by injection hh; contradiction)
      | _, isFalse h2 => isFalse (fun hh => by injection hh; contradiction)

/-- Decidable equality of association lists of values. -/
def Value.decEqPairs : (a b : List (String × Value)) → Decidable (a = b)
  | [], [] => isTrue rfl
  | [], _ :: _ => isFalse (fun h => List.noConfusion h)
  | _ :: _, [] => isFalse (fun h => List.noConfusion h)
  | (k1, v1) :: as, (k2, v2) :: bs =>
      if hk : k1 = k2 then
        match Value.decEq v1 v2, Value.decEqPairs as bs with
        | isTrue h1, isTrue h2 => isTrue (by rw [hk, h1, h2])
        | isFalse h1, _ => isFalse (fun hh => by
            injection hh with hh1 hh2
            exact h1 (congrArg Prod.snd hh1))
        | _, isFalse h2 => isFalse (fun hh => by injection hh; contradiction)
      else
        isFalse (fun hh => by
          injection hh with hh1 hh2
          exact hk (congrArg Prod.fst hh1))

end

instance : DecidableEq Value := Value.decEq

/-- A Python `dict` mapping string keys to untyped values. -/
abbrev Dict := List (String × Value)

/-- The typed errors raised by the embedded code.  `attributeError`,
`typeError` and `keyError` model the corresponding Python exceptions raised
by untyped attribute/subscript access. -/
inductive ConfigError where
  | duplicateKey : String → ConfigError
  | paastaNotConfigured : String → ConfigError
  | invalidJobName : String → ConfigError
  | noConfigurationForService : String → ConfigError
  | invalidInstanceConfig : String → ConfigError
  | attributeError : ConfigError
  | typeError : ConfigError
  | keyError : String → ConfigError
  | valueError : String → ConfigError
deriving Repr, DecidableEq

deriving instance DecidableEq for Except

/-- Association-list lookup: `d[k]` / `d.get(k)` on a Python dict. -/
def alookup {κ α : Type} [DecidableEq κ] : List (κ × α) → κ → Option α
  | [], _ => none
  | (k', v') :: rest, k => if k' = k then some v' else alookup rest k

/-- Embeds `d.get(k, default)` on a Python dict. -/
def lookupD (d : Dict) (k : String) (dflt : Value) : Value :=
  (alookup d k).getD dflt

/-- Embeds `d[k] = v` on a Python dict: replaces in place if the key is present
(Python dicts keep the original insertion position), appends otherwise. -/
def setKey : Dict → String → Value → Dict
  | [], k, v => [(k, v)]
  | (k', v') :: rest, k, v =>
      if k' = k then (k', v) :: rest else (k', v') :: setKey rest k v

/-- Python truthiness of a value (`if x:`). -/
def truthy : Value → Bool
  | .vNull => false
  | .vBool b => b
  | .vInt n => n != 0
  | .vStr s => s ≠ ""
  | .vList xs => !xs.isEmpty
  | .vDict d => !d.isEmpty

/-- Whether a value is a Python mapping (`isinstance(x, dict)`). -/
def Value.isDict : Value → Bool
  | .vDict _ => true
  | _ => false

/-- Modelled from the spec (section 4.1 FragmentMerger;
`paasta_tools.util.deep_merge` is not among the shown sources):
`merge(overrides, defaults, allow_duplicate_keys)`.  Recursively merges
nested mapping values; for non-mapping leaves the `overrides` value replaces
the `defaults` value entirely.  When `allow_duplicate_keys` is false and both
sides give the same leaf key different values, fails with a
`DuplicateKeyError` naming the offending key; identical values never fail.
The first argument list is the overrides dict being folded into the
accumulator `acc`, which starts as (a copy of) the defaults. -/
def deep_merge_dicts (allow : Bool) : Dict → Dict → Except ConfigError Dict
  | [], acc => .ok acc
  | (k, v) :: rest, acc =>
    match v, alookup acc k with
    | .vDict vd, some (.vDict dd) => do
        let m ← deep_merge_dicts allow vd dd
        deep_merge_dicts allow rest (setKey acc k (.vDict m))
    | _, some child =>
        if child = v then deep_merge_dicts allow rest acc
        else if allow then deep_merge_dicts allow rest (setKey acc k v)
        else .error (.duplicateKey k)
    | _, none => deep_merge_dicts allow rest (setKey acc k v)
termination_by l _ => sizeOf l
decreasing_by all_goals simp_arith [*]

/-- Modelled from the spec (section 4.1): the public entry point
`deep_merge_dictionaries(overrides, defaults, allow_duplicate_keys)`. -/
def deep_merge_dictionaries (overrides defaults : Dict) (allow_duplicate_keys : Bool) :
    Except ConfigError Dict :=
  deep_merge_dicts allow_duplicate_keys overrides defaults

/-- Modelled from the spec (`paasta_tools.util.const` is not among the shown
sources): the separator joining cluster and instance into a branch name and
service and instance into a job id; both the spec scenarios and the source
f-strings use a dot. -/
def SPACER : String := "."

/-- Modelled from the spec (section 6): the dedicated subdirectory holding
platform-generated auto-config overlay files. -/
def AUTO_SOACONFIG_SUBDIR : String := "autotuned-defaults"

/-- Modelled from the spec (section 6) and the source docstring of
`is_deploy_step` (predefined non-deploy step names, e.g. `itest`);
the full tuple lives in `paasta_tools.util.const`, not among the shown
sources. -/
def DEPLOY_PIPELINE_NON_DEPLOY_STEPS : List String := ["itest"]

/-- Embeds `get_paasta_branch(cluster, instance)`: `SPACER.join((cluster, instance))`. -/
def get_paasta_branch (cluster inst : String) : String :=
  cluster ++ SPACER ++ inst

/-- Python `s.startswith(pre)`, over exploded character lists (so that it
evaluates by kernel reduction on concrete strings). -/
def pyStartsWith (s pre : String) : Bool :=
  pre.data.isPrefixOf s.data

/-- Embeds `fnmatch` on exploded character lists: `*` matches any run of characters,
`?` any single character, anything else itself.  (POSIX `fnmatch.fnmatch`
without case normalization and without `[...]` classes, which the source
never uses: its only pattern is `*.json`.) -/
def fnmatchList : List Char → List Char → Bool
  | [], [] => true
  | [], _ :: _ => false
  | '*' :: ps, [] => fnmatchList ps []
  | '*' :: ps, c :: cs => fnmatchList ps (c :: cs) || fnmatchList ('*' :: ps) cs
  | '?' :: ps, _ :: cs => fnmatchList ps cs
  | '?' :: _, [] => false
  | _ :: _, [] => false
  | p :: ps, c :: cs => p = c && fnmatchList ps cs
termination_by p s => p.length + s.length
decreasing_by all_goals simp_arith [List.length]

/-- Embeds `fnmatch(name, pattern)` from Python's `fnmatch` module. -/
def fnmatch (nm pat : String) : Bool :=
  fnmatchList pat.data nm.data

/-- One file yielded by `os.walk`: its joined full path plus the
`os.path.isfile` and `os.access(fn, os.R_OK)` answers for it. -/
structure WalkEntry where
  path : String
  isFile : Bool
  readable : Bool
deriving Repr, DecidableEq

/-- Embeds `get_readable_files_in_glob(glob, path)`: filters the files found by
`os.walk(path)` (modelled by the explicit `walked` list) down to readable
regular files matching the glob, and returns their full paths sorted
(Python's `sorted`, modelled by insertion sort, which is likewise stable). -/
def get_readable_files_in_glob (glob : String) (walked : List WalkEntry) : List String :=
  List.insertionSort (· ≤ ·)
    ((walked.filter (fun e => e.isFile && e.readable && fnmatch e.path glob)).map WalkEntry.path)

/-- The merged system configuration together with the directory it was
loaded from (`SystemPaastaConfig.__init__`). -/
structure SystemPaastaConfig where
  config_dict : Dict
  directory : String
deriving Repr, DecidableEq

/-- The fragment fold of `parse_system_paasta_config`: for each
`(filename, stat)` pair in iteration order,
`config = deep_merge_dictionaries(json.load(f), config, allow_duplicate_keys=False)`. -/
def parseSystemConfigLoop (readFile : String → Dict) :
    List (String × Nat) → Dict → Except ConfigError Dict
  | [], config => .ok config
  | p :: rest, config => do
      let merged ← deep_merge_dictionaries (readFile p.1) config false
      parseSystemConfigLoop readFile rest merged

/-- Embeds `parse_system_paasta_config(file_stats, path)`: folds the fragments into
one config with `deep_merge_dictionaries(json.load(f), config,
allow_duplicate_keys=False)`.  Opening and `json.load`-ing a file is modelled
by `readFile`; `file_stats` is the iterated collection of
`(filename, stat-signature)` pairs.  The Python code iterates a `frozenset`,
whose order is unspecified; the embedding therefore takes the iteration
order as given by the list. -/
def parse_system_paasta_config (readFile : String → Dict)
    (file_stats : List (String × Nat)) (path : String) :
    Except ConfigError SystemPaastaConfig := do
  let cfg ← parseSystemConfigLoop readFile file_stats []
  .ok (SystemPaastaConfig.mk cfg path)

/-- The os-level filesystem as seen by the system-config loader.  `content`
gives the parsed contents of a fragment file as a function of its path and
stat signature: this encodes the spec's FileSetKey guarantee (section 3) that
under atomic-replace semantics two observations of the same (path, stat)
pair saw byte-identical contents. -/
structure PaastaFs where
  isdir : String → Bool
  readable : String → Bool
  walk : String → List WalkEntry
  stat : String → Nat
  content : String → Nat → Dict

/-- The process-wide `lru_cache` on `parse_system_paasta_config`, keyed by
the (path, FileSetKey) pair. -/
abbrev SysCache := List ((String × List (String × Nat)) × SystemPaastaConfig)

/-- The sorted fragment discovery of `load_system_paasta_config`. -/
def systemConfigFiles (fs : PaastaFs) (path : String) : List String :=
  get_readable_files_in_glob "*.json" (fs.walk path)

/-- The FileSetKey observed by one scan: the discovered fragment paths
paired with their current stat signatures. -/
def mkFileSetKey (fs : PaastaFs) (path : String) : List (String × Nat) :=
  (systemConfigFiles fs path).map (fun fn => (fn, fs.stat fn))

/-- Embeds `load_system_paasta_config(path)`: checks the directory, computes the
(path, FileSetKey) cache key and consults the `lru_cache`; on a miss it
parses and merges the fragments and caches a successful result (Python's
`lru_cache` does not cache a raising call).  Returns the result, the updated
cache, and whether any fragment file content was read. -/
def load_system_paasta_config (fs : PaastaFs) (path : String) (cache : SysCache) :
    Except ConfigError SystemPaastaConfig × SysCache × Bool :=
  if fs.isdir path = false then
    (.error (.paastaNotConfigured
      ("Could not find system paasta configuration directory: " ++ path)), cache, false)
  else if fs.readable path = false then
    (.error (.paastaNotConfigured
      ("Could not read from system paasta configuration directory: " ++ path)), cache, false)
  else
    let key := (path, mkFileSetKey fs path)
    match alookup cache key with
    | some v => (.ok v, cache, false)
    | none =>
      match parse_system_paasta_config (fun fn => fs.content fn (fs.stat fn))
          (mkFileSetKey fs path) path with
      | .ok v => (.ok v, (key, v) :: cache, true)
      | .error e => (.error e, cache, true)

/-- Embeds `SystemPaastaConfig.get_auto_config_instance_types_enabled`:
`config_dict.get("auto_config_instance_types_enabled", {})`. -/
def SystemPaastaConfig.get_auto_config_instance_types_enabled
    (c : SystemPaastaConfig) : Value :=
  lookupD c.config_dict "auto_config_instance_types_enabled" (.vDict [])

/-- Modelled from the spec (section 1/6): the external
`service_configuration_lib` collaborator, read-only access to per-service
config files.  `read_extra_service_information service conf_file soa_dir`
returns the parsed mapping of `soa_dir/service/conf_file.yaml` (empty when
the file is missing); its values are instance-config mappings.
`read_service_configuration service soa_dir` returns the parsed
`service.yaml` mapping. -/
structure SoaFs where
  read_extra_service_information : String → String → String → List (String × Dict)
  read_service_configuration : String → String → Dict

/-- Embeds `filter_templates_from_config(config)`: drops every top-level key
starting with `_` (template entries).  The Python `config or {}` coda maps
an empty dict to an empty dict and is the identity here. -/
def filter_templates_from_config {α : Type} (config : List (String × α)) :
    List (String × α) :=
  config.filter (fun kv => !(pyStartsWith kv.1 "_"))

/-- Embeds `load_service_instance_auto_configs(service, instance_type, cluster,
soa_dir)`.  The ambient `load_system_paasta_config()` result is passed
explicitly as `syscfg`.  If the system config's feature-flag map has a truthy
entry for this instance type, reads the auto-config overlay file from the
dedicated subdirectory; otherwise the overlay is empty.  A non-mapping
feature-flag value makes the `.get` attribute access raise. -/
def load_service_instance_auto_configs (syscfg : SystemPaastaConfig) (fs : SoaFs)
    (service instance_type cluster soa_dir : String) :
    Except ConfigError (List (String × Dict)) :=
  let conf_file := instance_type ++ "-" ++ cluster
  match syscfg.get_auto_config_instance_types_enabled with
  | .vDict enabled_types =>
      if truthy (lookupD enabled_types instance_type .vNull) then
        .ok (fs.read_extra_service_information service
          (AUTO_SOACONFIG_SUBDIR ++ "/" ++ conf_file) soa_dir)
      else
        .ok []
  | _ => .error .attributeError

/-- The merge loop of `load_service_instance_configs`: for every entry of
the filtered user config file, in file order,
`merged[instance_name] = deep_merge_dictionaries(user_config,
auto_configs.get(instance_name, {}))`. -/
def mergeUserAutoLoop (auto_configs : List (String × Dict)) :
    List (String × Dict) → Except ConfigError (List (String × Dict))
  | [] => .ok []
  | (instance_name, user_config) :: rest => do
      let merged ← deep_merge_dictionaries user_config
        ((alookup auto_configs instance_name).getD []) true
      let tail ← mergeUserAutoLoop auto_configs rest
      .ok ((instance_name, merged) :: tail)

/-- Embeds `load_service_instance_configs(service, instance_type, cluster,
soa_dir)`: the bulk resolver.  Reads the user config file once, filters
template entries, and overlays every remaining instance over its auto-config
entry with `deep_merge_dictionaries` (default `allow_duplicate_keys=True`). -/
def load_service_instance_configs (syscfg : SystemPaastaConfig) (fs : SoaFs)
    (service instance_type cluster soa_dir : String) :
    Except ConfigError (List (String × Dict)) := do
  let conf_file := instance_type ++ "-" ++ cluster
  let user_configs := filter_templates_from_config
    (fs.read_extra_service_information service conf_file soa_dir)
  let auto_configs ← load_service_instance_auto_configs syscfg fs
    service instance_type cluster soa_dir
  mergeUserAutoLoop auto_configs user_configs

/-- Embeds `load_service_instance_config(service, instance, instance_type, cluster,
soa_dir)`: the single-instance resolver.  Rejects reserved `_`-prefixed
instance names, reads the user config file, fails when the instance key is
absent, and overlays the user config over the auto-config entry
(`deep_merge_dictionaries` with default `allow_duplicate_keys=True`). -/
def load_service_instance_config (syscfg : SystemPaastaConfig) (fs : SoaFs)
    (service inst instance_type cluster soa_dir : String) :
    Except ConfigError Dict :=
  if pyStartsWith inst "_" then
    .error (.invalidJobName
      ("Unable to load " ++ instance_type ++ " config for " ++ service ++ "." ++ inst
        ++ " as instance name starts with _"))
  else
    let conf_file := instance_type ++ "-" ++ cluster
    match alookup (fs.read_extra_service_information service conf_file soa_dir) inst with
    | none =>
        .error (.noConfigurationForService
          (inst ++ " not found in config file " ++ soa_dir ++ "/" ++ service ++ "/"
            ++ conf_file ++ ".yaml."))
    | some user_config => do
        let auto_configs ← load_service_instance_auto_configs syscfg fs
          service instance_type cluster soa_dir
        deep_merge_dictionaries user_config ((alookup auto_configs inst).getD []) true

/-- The action names of one tron job: `list(job.get("actions", {}).keys())`.
Calling `.keys()` on a non-mapping `actions` value raises. -/
def tronJobActionNames (job : Dict) : Except ConfigError (List String) :=
  match alookup job "actions" with
  | none => .ok []
  | some (.vDict d) => .ok (d.map Prod.fst)
  | some _ => .error .attributeError

/-- The tron loop of `read_service_instance_names`: one `(service,
"job.action")` pair per declared action per job, in file order. -/
def tronInstancePairs (service : String) :
    List (String × Dict) → Except ConfigError (List (String × String))
  | [] => .ok []
  | (job_name, job) :: rest => do
      let action_names ← tronJobActionNames job
      let tail ← tronInstancePairs service rest
      .ok ((action_names.map (fun nm => (service, job_name ++ "." ++ nm))) ++ tail)

/-- Embeds `read_service_instance_names(service, instance_type, cluster, soa_dir)`:
reads the `{instance_type}-{cluster}` file, drops template keys, then
expands tron jobs into one pseudo-instance per action and every other
instance type into one pseudo-instance per top-level key. -/
def read_service_instance_names (fs : SoaFs)
    (service instance_type cluster soa_dir : String) :
    Except ConfigError (List (String × String)) :=
  let conf_file := instance_type ++ "-" ++ cluster
  let config := filter_templates_from_config
    (fs.read_extra_service_information service conf_file soa_dir)
  if instance_type = "tron" then
    tronInstancePairs service config
  else
    .ok (config.map (fun kv => (service, kv.1)))

mutual

/-- Python `repr` of a value (quote selection and escaping of nested strings
simplified to plain single quotes, which no claim depends on). -/
def Value.pyRepr : Value → String
  | .vNull => "None"
  | .vBool true => "True"
  | .vBool false => "False"
  | .vInt n => toString n
  | .vStr s => "\x27" ++ s ++ "\x27"
  | .vList xs => "[" ++ pyReprList xs ++ "]"
  | .vDict d => "\x7b" ++ pyReprPairs d ++ "\x7d"

/-- Comma-joined reprs of list elements. -/
def Value.pyReprList : List Value → String
  | [] => ""
  | [v] => v.pyRepr
  | v :: rest => v.pyRepr ++ ", " ++ pyReprList rest

/-- Comma-joined reprs of dict items. -/
def Value.pyReprPairs : List (String × Value) → String
  | [] => ""
  | [(k, v)] => "\x27" ++ k ++ "\x27: " ++ v.pyRepr
  | (k, v) :: rest => "\x27" ++ k ++ "\x27: " ++ v.pyRepr ++ ", " ++ pyReprPairs rest

end

/-- Python `str` of a value: the string itself for strings, `repr`-like
rendering otherwise (as `"%s" % value` and f-strings produce). -/
def Value.pyStr : Value → String
  | .vStr s => s
  | v => v.pyRepr

/-- Substring test on exploded character lists. -/
def listContainsSub : List Char → List Char → Bool
  | [], sub => sub.isEmpty
  | c :: t, sub => sub.isPrefixOf (c :: t) || listContainsSub t sub

/-- Whether `sub` occurs as a contiguous substring of `s` (Python `in`). -/
def strContainsSub (s sub : String) : Bool :=
  listContainsSub s.data sub.data

/-- Embeds `get_pipeline_config(service, soa_dir)`:
`read_service_configuration(service, soa_dir).get("deploy", {}).get("pipeline", [])`.
A non-mapping `deploy` value or non-list `pipeline` value makes the untyped
access raise (in the source, at this call or while iterating the result). -/
def get_pipeline_config (fs : SoaFs) (service soa_dir : String) :
    Except ConfigError (List Value) :=
  match lookupD (fs.read_service_configuration service soa_dir) "deploy" (.vDict []) with
  | .vDict d =>
      match lookupD d "pipeline" (.vList []) with
      | .vList xs => .ok xs
      | _ => .error .typeError
  | _ => .error .attributeError

/-- Embeds `is_deploy_step(step)`: true unless the step is one of the predefined
non-deploy step names or starts with `command-`. -/
def is_deploy_step (step : String) : Bool :=
  !(DEPLOY_PIPELINE_NON_DEPLOY_STEPS.contains step || pyStartsWith step "command-")

/-- Extracting `step["step"]` from one pipeline entry: a missing key, a
non-mapping entry, or a non-string step name raises (in the source, at the
subscript or at the `startswith` inside `is_deploy_step`). -/
def pipelineStepName : Value → Except ConfigError String
  | .vDict d =>
      match alookup d "step" with
      | some (.vStr s) => .ok s
      | some _ => .error .typeError
      | none => .error (.keyError "step")
  | _ => .error .typeError

/-- The comprehension `[step["step"] for step in pipeline]`. -/
def pipelineStepNames : List Value → Except ConfigError (List String)
  | [] => .ok []
  | step :: rest => do
      let s ← pipelineStepName step
      let tail ← pipelineStepNames rest
      .ok (s :: tail)

/-- Embeds `get_pipeline_deploy_groups(service, soa_dir)`: the `step` fields of the
pipeline entries, keeping only genuine deploy steps. -/
def get_pipeline_deploy_groups (fs : SoaFs) (service soa_dir : String) :
    Except ConfigError (List String) := do
  let pipeline ← get_pipeline_config fs service soa_dir
  let pipeline_steps ← pipelineStepNames pipeline
  .ok (pipeline_steps.filter is_deploy_step)

/-- The resolved per-instance record (`InstanceConfig.__init__` state).
The field `inst` models `self.instance` (`instance` is a Lean keyword);
`job_id` models `self._job_id = compose_job_id(service, instance)`, with
`compose_job_id` (from `paasta_tools.util.names`, not among the shown
sources) modelled from the spec as the SPACER-joined pair. -/
structure InstanceConfig where
  cluster : String
  inst : String
  service : String
  config_dict : Dict
  branch_dict : Option Dict
  soa_dir : String
  job_id : String
deriving Repr, DecidableEq

/-- Embeds `InstanceConfig.get_branch`. -/
def InstanceConfig.get_branch (c : InstanceConfig) : String :=
  get_paasta_branch c.cluster c.inst

/-- Embeds `InstanceConfig.get_deploy_group`:
`config_dict.get("deploy_group", self.get_branch())`. -/
def InstanceConfig.get_deploy_group (c : InstanceConfig) : Value :=
  lookupD c.config_dict "deploy_group" (.vStr c.get_branch)

/-- Embeds `InstanceConfig.get_cmd`: `config_dict.get("cmd", None)`. -/
def InstanceConfig.get_cmd (c : InstanceConfig) : Value :=
  lookupD c.config_dict "cmd" .vNull

/-- Embeds `InstanceConfig.get_args`: the declared `args` (defaulting to `[]`) when
no command is set; `None` when a command is set and `args` is not; an
`InvalidInstanceConfig` failure when both are set. -/
def InstanceConfig.get_args (c : InstanceConfig) : Except ConfigError Value :=
  if c.get_cmd = .vNull then
    .ok (lookupD c.config_dict "args" (.vList []))
  else
    if lookupD c.config_dict "args" .vNull = .vNull then
      .ok .vNull
    else
      .error (.invalidInstanceConfig
        "Instance configuration can specify cmd or args, but not both.")

/-- Python `isinstance(x, (float, int))`; `bool` is a subclass of `int`. -/
def isNumericValue : Value → Bool
  | .vInt _ => true
  | .vBool _ => true
  | _ => false

/-- Embeds `InstanceConfig.get_cpus`: `config_dict.get("cpus", 1)`. -/
def InstanceConfig.get_cpus (c : InstanceConfig) : Value :=
  lookupD c.config_dict "cpus" (.vInt 1)

/-- Embeds `InstanceConfig.get_mem`: `config_dict.get("mem", 4096)`. -/
def InstanceConfig.get_mem (c : InstanceConfig) : Value :=
  lookupD c.config_dict "mem" (.vInt 4096)

/-- Embeds `InstanceConfig.check_cpus`. -/
def InstanceConfig.check_cpus (c : InstanceConfig) : Bool × String :=
  let cpus := c.get_cpus
  if cpus ≠ .vNull ∧ ¬ isNumericValue cpus then
    (false, "The specified cpus value \"" ++ cpus.pyStr ++ "\" is not a valid float or int.")
  else
    (true, "")

/-- Embeds `InstanceConfig.check_mem`. -/
def InstanceConfig.check_mem (c : InstanceConfig) : Bool × String :=
  let mem := c.get_mem
  if mem ≠ .vNull ∧ ¬ isNumericValue mem then
    (false, "The specified mem value \"" ++ mem.pyStr ++ "\" is not a valid float or int.")
  else
    (true, "")

/-- Embeds `InstanceConfig.check_security`.  (The source renders the unknown keys
through an unordered `set`; the embedding keeps them in file order.) -/
def InstanceConfig.check_security (c : InstanceConfig) : Except ConfigError (Bool × String) :=
  match alookup c.config_dict "security" with
  | none => .ok (true, "")
  | some .vNull => .ok (true, "")
  | some (.vDict security) =>
      let inbound_firewall := lookupD security "inbound_firewall" .vNull
      let outbound_firewall := lookupD security "outbound_firewall" .vNull
      if inbound_firewall = .vNull ∧ outbound_firewall = .vNull then
        .ok (true, "")
      else if inbound_firewall ≠ .vNull
          ∧ inbound_firewall ≠ .vStr "allow" ∧ inbound_firewall ≠ .vStr "reject" then
        .ok (false, "Unrecognized inbound_firewall value \"" ++ inbound_firewall.pyStr ++ "\"")
      else if outbound_firewall ≠ .vNull
          ∧ outbound_firewall ≠ .vStr "block" ∧ outbound_firewall ≠ .vStr "monitor" then
        .ok (false, "Unrecognized outbound_firewall value \"" ++ outbound_firewall.pyStr ++ "\"")
      else
        let unknown_keys := (security.map Prod.fst).filter
          (fun k => k ≠ "inbound_firewall" ∧ k ≠ "outbound_firewall")
        if unknown_keys.isEmpty then
          .ok (true, "")
        else
          .ok (false, "Unrecognized items in security dict of service config: \""
            ++ String.intercalate "," unknown_keys ++ "\"")
  | some _ => .error .attributeError

/-- Python `x in container` for the `dependencies` lookup: key membership in
a mapping, element membership in a list, substring test on a string,
`TypeError` otherwise. -/
def pyContains (container needle : Value) : Except ConfigError Bool :=
  match container with
  | .vDict d => .ok (d.any (fun kv => .vStr kv.1 = needle))
  | .vList xs => .ok (xs.contains needle)
  | .vStr s =>
      match needle with
      | .vStr t => .ok (strContainsSub s t)
      | _ => .error .typeError
  | _ => .error .typeError

/-- Embeds `InstanceConfig.check_dependencies_reference`. -/
def InstanceConfig.check_dependencies_reference (c : InstanceConfig) :
    Except ConfigError (Bool × String) :=
  match alookup c.config_dict "dependencies_reference" with
  | none => .ok (true, "")
  | some .vNull => .ok (true, "")
  | some dependencies_reference =>
      match alookup c.config_dict "dependencies" with
      | none => .ok (false, "dependencies_reference \"" ++ dependencies_reference.pyStr
          ++ "\" declared but no dependencies found")
      | some .vNull => .ok (false, "dependencies_reference \"" ++ dependencies_reference.pyStr
          ++ "\" declared but no dependencies found")
      | some dependencies => do
          let isIn ← pyContains dependencies dependencies_reference
          if isIn then
            .ok (true, "")
          else
            .ok (false, "dependencies_reference \"" ++ dependencies_reference.pyStr
              ++ "\" not found in dependencies dictionary")

/-- Embeds `InstanceConfig.check_deploy_group`: passes when the effective deploy
group is `None` or occurs among the pipeline's genuine deploy groups; fails
with a message naming the offending deploy group otherwise. -/
def InstanceConfig.check_deploy_group (c : InstanceConfig) (fs : SoaFs) :
    Except ConfigError (Bool × String) :=
  let deploy_group := c.get_deploy_group
  if deploy_group = .vNull then
    .ok (true, "")
  else do
    let pipeline_deploy_groups ← get_pipeline_deploy_groups fs c.service c.soa_dir
    let isIn := match deploy_group with
      | .vStr s => pipeline_deploy_groups.contains s
      | _ => false
    if isIn then
      .ok (true, "")
    else
      .ok (false, c.service ++ "." ++ c.inst ++ " uses deploy_group "
        ++ deploy_group.pyStr ++ ", but it is not deploy.yaml")

/-- The set of check names `InstanceConfig.check` dispatches on. -/
def supportedCheckParams : List String :=
  ["cpus", "mem", "security", "dependencies_reference", "deploy_group"]

/-- Embeds `InstanceConfig.check(param)`: dispatches to the check method for the
parameter; an unknown parameter yields a failed check with a descriptive
message (it is returned, not raised). -/
def InstanceConfig.check (c : InstanceConfig) (fs : SoaFs) (param : String) :
    Except ConfigError (Bool × String) :=
  if param = "cpus" then .ok c.check_cpus
  else if param = "mem" then .ok c.check_mem
  else if param = "security" then c.check_security
  else if param = "dependencies_reference" then c.check_dependencies_reference
  else if param = "deploy_group" then c.check_deploy_group fs
  else .ok (false, "Your service config specifies \"" ++ param ++ "\", an unsupported parameter.")

/-- The accumulation loop of `InstanceConfig.validate`: runs every requested
check and appends the message of each failing one, in request order. -/
def validateGo (c : InstanceConfig) (fs : SoaFs) :
    List String → List String → Except ConfigError (List String)
  | [], error_msgs => .ok error_msgs
  | param :: rest, error_msgs => do
      let r ← c.check fs param
      validateGo c fs rest (if r.1 then error_msgs else error_msgs ++ [r.2])

/-- Embeds `InstanceConfig.validate(params)` (the source's default `params` is
`supportedCheckParams`). -/
def InstanceConfig.validate (c : InstanceConfig) (fs : SoaFs) (params : List String) :
    Except ConfigError (List String) :=
  validateGo c fs params []

mutual

/-- Python `str.format` restricted to plain named fields, as used by
`InstanceConfig.__init__` on `deploy_group` with the interpolation facts:
`{{`/`}}` are brace escapes, `{name}` substitutes the named fact (a missing
name raises `KeyError`), a lone brace raises `ValueError`. -/
def pyFormatAux (facts : List (String × String)) : List Char → Except ConfigError (List Char)
  | [] => .ok []
  | '{' :: '{' :: rest => do
      let t ← pyFormatAux facts rest
      .ok ('{' :: t)
  | '}' :: '}' :: rest => do
      let t ← pyFormatAux facts rest
      .ok ('}' :: t)
  | '{' :: rest => pyFormatField facts [] rest
  | '}' :: _ => .error (.valueError "Single brace encountered in format string")
  | c :: rest => do
      let t ← pyFormatAux facts rest
      .ok (c :: t)
termination_by l => l.length
decreasing_by all_goals simp_arith [List.length]

/-- Scanning the field name between `{` and `}` in a format string. -/
def pyFormatField (facts : List (String × String)) (acc : List Char) :
    List Char → Except ConfigError (List Char)
  | [] => .error (.valueError "Single brace encountered in format string")
  | '}' :: rest =>
      match alookup facts (String.mk acc) with
      | some v => do
          let t ← pyFormatAux facts rest
          .ok (v.data ++ t)
      | none => .error (.keyError (String.mk acc))
  | c :: rest => pyFormatField facts (acc ++ [c]) rest
termination_by l => l.length
decreasing_by all_goals simp_arith [List.length]

end

/-- Embeds `template.format(**interpolation_facts)`. -/
def pyFormat (template : String) (facts : List (String × String)) :
    Except ConfigError String := do
  let t ← pyFormatAux facts template.data
  .ok (String.mk t)

/-- Embeds `InstanceConfig.__init__(cluster, instance, service, config_dict,
branch_dict, soa_dir)`: stores the fields and job id, then interpolates the
config keys in `config_interpolation_keys = ("deploy_group",)` as format
strings over the facts `{cluster, instance, service}` when present and not
`None`.  Calling `.format` on a non-string value raises. -/
def mkInstanceConfig (cluster inst service : String) (config_dict : Dict)
    (branch_dict : Option Dict) (soa_dir : String) : Except ConfigError InstanceConfig :=
  let job_id := service ++ SPACER ++ inst
  let interpolation_facts :=
    [("cluster", cluster), ("instance", inst), ("service", service)]
  match alookup config_dict "deploy_group" with
  | none => .ok ⟨cluster, inst, service, config_dict, branch_dict, soa_dir, job_id⟩
  | some .vNull => .ok ⟨cluster, inst, service, config_dict, branch_dict, soa_dir, job_id⟩
  | some (.vStr s) => do
      let t ← pyFormat s interpolation_facts
      .ok ⟨cluster, inst, service, setKey config_dict "deploy_group" (.vStr t),
        branch_dict, soa_dir, job_id⟩
  | some _ => .error .attributeError

/-- The declared action names of a tron job when `actions` is absent or a
mapping (the cases in which `tronJobActionNames` succeeds). -/
def tronActionKeys (job : Dict) : List String :=
  match alookup job "actions" with
  | some (.vDict d) => d.map Prod.fst
  | _ => []

/-! Concrete fixtures used by the claim theorems and their witnesses. -/

/-- Fragment contents for the C1 counterexample: two fragments that give the
top-level key `cluster` different values. -/
def c1ReadFile : String → Dict := fun fn =>
  if fn = "a.json" then [("cluster", .vStr "a")]
  else if fn = "b.json" then [("cluster", .vStr "b")]
  else []

/-- A one-fragment system-config directory whose fragment content depends on
the observed stat signature (C5 witness). -/
def c5SampleFs : PaastaFs :=
  ⟨fun _ => true, fun _ => true, fun _ => [⟨"a.json", true, true⟩], fun _ => 0,
    fun _ st => if st = 0 then [("cluster", .vStr "old")] else [("cluster", .vStr "new")]⟩

/-- The changed stat function for the C5 witness. -/
def c5SampleStat2 : String → Nat := fun _ => 1

/-- Embeds `c5SampleFs` after the fragment file was atomically replaced: same
directory tree, new stat signature. -/
def c5SampleFs2 : PaastaFs :=
  ⟨c5SampleFs.isdir, c5SampleFs.readable, c5SampleFs.walk, c5SampleStat2,
    c5SampleFs.content⟩

/-- A system config enabling the auto-config overlay for instance type
`web` (C2 witness). -/
def c2SampleSys : SystemPaastaConfig :=
  ⟨[("auto_config_instance_types_enabled", .vDict [("web", .vBool true)])], "/etc/paasta"⟩

/-- Service files for the C2 witness: a user file with a template entry and
one instance, plus an auto-config overlay for that instance. -/
def c2SampleFs : SoaFs :=
  ⟨fun _ conf_file _ =>
    if conf_file = "web-pnw" then
      [("_template", [("cpus", .vInt 2)]), ("main", [("cpus", .vInt 2)])]
    else if conf_file = "autotuned-defaults/web-pnw" then
      [("main", [("mem", .vInt 512)])]
    else [],
   fun _ _ => []⟩

/-- A system config whose auto-config feature flag for `web` is false
(C3 witness). -/
def c3SampleSys : SystemPaastaConfig :=
  ⟨[("auto_config_instance_types_enabled", .vDict [("web", .vBool false)])], "/etc/paasta"⟩

/-- Service files for the C3 witness: the auto-config overlay file exists
and conflicts with the user file. -/
def c3SampleFs : SoaFs :=
  ⟨fun _ conf_file _ =>
    if conf_file = "web-pnw" then [("main", [("cpus", .vInt 1)])]
    else if conf_file = "autotuned-defaults/web-pnw" then [("main", [("cpus", .vInt 99)])]
    else [],
   fun _ _ => []⟩

/-- Like `c3SampleFs` but with no auto-config file at all. -/
def c3SampleFsNoAuto : SoaFs :=
  ⟨fun _ conf_file _ =>
    if conf_file = "web-pnw" then [("main", [("cpus", .vInt 1)])] else [],
   fun _ _ => []⟩

/-- An empty service directory (C4 witness). -/
def c4SampleFs : SoaFs := ⟨fun _ _ _ => [], fun _ _ => []⟩

/-- Service files for the C6 scenario: an instance file with top-level keys
`_template` and `main`. -/
def c6SampleFs : SoaFs :=
  ⟨fun _ conf_file _ =>
    if conf_file = "web-pnw" then
      [("_template", [("cpus", .vInt 1)]), ("main", [("cpus", .vInt 1)])]
    else [],
   fun _ _ => []⟩

/-- Service files for the C6 witness: a tron file with a template entry and
one job declaring two actions. -/
def c6TronFs : SoaFs :=
  ⟨fun _ conf_file _ =>
    if conf_file = "tron-pnw" then
      [("_tmpl", [("actions", .vDict [("x", .vDict [])])]),
       ("job1", [("actions", .vDict [("run", .vDict []), ("clean", .vDict [])])]),
       ("job2", [("schedule", .vStr "daily")])]
    else [],
   fun _ _ => []⟩

/-- The C7 scenario's deploy pipeline:
`[{"step": "itest"}, {"step": "prod.main"}, {"step": "command-foo"}]`. -/
def c7SampleFs : SoaFs :=
  ⟨fun _ _ _ => [],
   fun _ _ =>
     [("deploy", .vDict [("pipeline", .vList
       [.vDict [("step", .vStr "itest")],
        .vDict [("step", .vStr "prod.main")],
        .vDict [("step", .vStr "command-foo")]])])]⟩

/-- The C7 scenario record whose effective deploy group is `prod.main`. -/
def c7MainConfig : InstanceConfig :=
  ⟨"pnw", "main", "svc", [("deploy_group", .vStr "prod.main")], none, "/soa", "svc.main"⟩

/-- The C7 scenario record whose effective deploy group is `prod.canary`. -/
def c7CanaryConfig : InstanceConfig :=
  ⟨"pnw", "canary", "svc", [("deploy_group", .vStr "prod.canary")], none, "/soa", "svc.canary"⟩

/-- An instance record with two non-numeric resource values (C8 witness). -/
def c8SampleConfig : InstanceConfig :=
  ⟨"pnw", "main", "svc", [("cpus", .vStr "lots"), ("mem", .vStr "many")], none, "/soa",
    "svc.main"⟩

/-- An empty service directory (C8 witness). -/
def c8SampleFs : SoaFs := ⟨fun _ _ _ => [], fun _ _ => []⟩

/-- An instance record declaring `args` but no `cmd` (C9 witness). -/
def c9SampleConfig : InstanceConfig :=
  ⟨"pnw", "main", "svc", [("args", .vList [.vStr "serve"])], none, "/soa", "svc.main"⟩

/-! Supporting lemmas. -/

theorem alookup_cons_self {κ α : Type} [DecidableEq κ] (k : κ) (v : α)
    (rest : List (κ × α)) : alookup ((k, v) :: rest) k = some v := by
  simp [alookup]

theorem alookup_cons_ne {κ α : Type} [DecidableEq κ] {k' k : κ} (v : α)
    (rest : List (κ × α)) (h : k' ≠ k) :
    alookup ((k', v) :: rest) k = alookup rest k := by
  simp [alookup, h]

theorem alookup_append {κ α : Type} [DecidableEq κ] (xs ys : List (κ × α)) (k : κ) :
    alookup (xs ++ ys) k = ((alookup xs k).orElse (fun _ => alookup ys k)) := by
  induction xs with
  | nil => simp [alookup]
  | cons hd tl ih =>
      obtain ⟨k', v'⟩ := hd
      by_cases h : k' = k
      · subst h; simp [alookup]
      · simp [alookup, h, ih]

theorem alookup_setKey_self (d : Dict) (k : String) (v : Value) :
    alookup (setKey d k v) k = some v := by
  induction d with
  | nil => simp [setKey, alookup]
  | cons hd tl ih =>
      obtain ⟨k', v'⟩ := hd
      by_cases h : k' = k
      · subst h; simp [setKey, alookup]
      · simp [setKey, alookup, h, ih]

theorem alookup_setKey_ne (d : Dict) {k' k : String} (v : Value) (h : k' ≠ k) :
    alookup (setKey d k' v) k = alookup d k := by
  induction d with
  | nil => simp [setKey, alookup, h]
  | cons hd tl ih =>
      obtain ⟨k0, v0⟩ := hd
      by_cases h0 : k0 = k'
      · subst h0; simp [setKey, alookup, h]
      · by_cases h1 : k0 = k
        · subst h1; simp [setKey, alookup, h0]
        · simp [setKey, alookup, h0, h1, ih]

theorem setKey_eq_append (d : Dict) (k : String) (v : Value)
    (h : alookup d k = none) : setKey d k v = d ++ [(k, v)] := by
  induction d with
  | nil => simp [setKey]
  | cons hd tl ih =>
      obtain ⟨k', v'⟩ := hd
      by_cases hk : k' = k
      · subst hk; simp [alookup] at h
      · rw [alookup_cons_ne _ _ hk] at h
        simp [setKey, hk, ih h]

theorem alookup_filter_templates {α : Type} (d : List (String × α)) (k : String)
    (h : pyStartsWith k "_" = false) :
    alookup (filter_templates_from_config d) k = alookup d k := by
  induction d with
  | nil => simp [filter_templates_from_config]
  | cons hd tl ih =>
      obtain ⟨k', v'⟩ := hd
      by_cases hk : k' = k
      · subst hk
        simp [filter_templates_from_config, List.filter_cons, h, alookup]
      · rw [alookup_cons_ne _ _ hk]
        by_cases ht : pyStartsWith k' "_"
        · have hf : filter_templates_from_config ((k', v') :: tl)
              = filter_templates_from_config tl := by
            simp [filter_templates_from_config, List.filter_cons, ht]
          rw [hf]; exact ih
        · have hf : filter_templates_from_config ((k', v') :: tl)
              = (k', v') :: filter_templates_from_config tl := by
            simp [filter_templates_from_config, List.filter_cons, ht]
          rw [hf, alookup_cons_ne _ _ hk]; exact ih

theorem map_eq_map_mem {α β : Type} (g h : α → β) (l : List α)
    (heq : l.map g = l.map h) : ∀ x ∈ l, g x = h x := by
  simpa using heq

theorem dmd_nil (allow : Bool) (acc : Dict) :
    deep_merge_dicts allow [] acc = .ok acc := by
  simp [deep_merge_dicts]

theorem dmd_cons_none (allow : Bool) (k : String) (v : Value) (rest acc : Dict)
    (h : alookup acc k = none) :
    deep_merge_dicts allow ((k, v) :: rest) acc
      = deep_merge_dicts allow rest (setKey acc k v) := by
  cases v <;> simp [deep_merge_dicts, h]

theorem dmd_cons_dict_ok (allow : Bool) (k : String) (vd dd rest acc m : Dict)
    (h : alookup acc k = some (.vDict dd))
    (hm : deep_merge_dicts allow vd dd = .ok m) :
    deep_merge_dicts allow ((k, .vDict vd) :: rest) acc
      = deep_merge_dicts allow rest (setKey acc k (.vDict m)) := by
  rw [deep_merge_dicts.eq_def]
  simp [h, hm]
  rfl

theorem dmd_cons_dict_err (allow : Bool) (k : String) (vd dd rest acc : Dict)
    (e : ConfigError) (h : alookup acc k = some (.vDict dd))
    (hm : deep_merge_dicts allow vd dd = .error e) :
    deep_merge_dicts allow ((k, .vDict vd) :: rest) acc = .error e := by
  rw [deep_merge_dicts.eq_def]
  simp [h, hm]
  rfl

theorem dmd_cons_same (allow : Bool) (k : String) (v : Value) (rest acc : Dict)
    (h : alookup acc k = some v) (hv : v.isDict = false) :
    deep_merge_dicts allow ((k, v) :: rest) acc = deep_merge_dicts allow rest acc := by
  rw [deep_merge_dicts.eq_def]
  cases v <;> simp_all [Value.isDict]

theorem dmd_cons_conflict_err (k : String) (v child : Value) (rest acc : Dict)
    (h : alookup acc k = some child) (hne : child ≠ v)
    (hnd : child.isDict = false ∨ v.isDict = false) :
    deep_merge_dicts false ((k, v) :: rest) acc = .error (.duplicateKey k) := by
  rw [deep_merge_dicts.eq_def]
  cases v <;> cases child <;> simp_all [Value.isDict]

theorem dmd_cons_conflict_true (k : String) (v child : Value) (rest acc : Dict)
    (h : alookup acc k = some child) (hne : child ≠ v)
    (hnd : child.isDict = false ∨ v.isDict = false) :
    deep_merge_dicts true ((k, v) :: rest) acc
      = deep_merge_dicts true rest (setKey acc k v) := by
  rw [deep_merge_dicts.eq_def]
  cases v <;> cases child <;> simp_all [Value.isDict]

theorem isDict_eq_true_iff (v : Value) : v.isDict = true ↔ ∃ d, v = Value.vDict d := by
  cases v <;> simp [Value.isDict]

theorem not_both_dicts {v child : Value}
    (hdd : ¬ (v.isDict = true ∧ child.isDict = true)) :
    child.isDict = false ∨ v.isDict = false := by
  cases hv : v.isDict <;> cases hc : child.isDict <;> simp_all

theorem deep_merge_true_ok : ∀ (d acc : Dict), ∃ r, deep_merge_dicts true d acc = .ok r
  | [], acc => ⟨acc, dmd_nil true acc⟩
  | (k, v) :: rest, acc => by
      cases hl : alookup acc k with
      | none =>
          rw [dmd_cons_none true k v rest acc hl]
          exact deep_merge_true_ok rest (setKey acc k v)
      | some child =>
          by_cases hdd : v.isDict = true ∧ child.isDict = true
          · obtain ⟨vd, hv⟩ := (isDict_eq_true_iff v).mp hdd.1
            obtain ⟨dd, hc⟩ := (isDict_eq_true_iff child).mp hdd.2
            subst hv; subst hc
            obtain ⟨m, hm⟩ := deep_merge_true_ok vd dd
            rw [dmd_cons_dict_ok true k vd dd rest acc m hl hm]
            exact deep_merge_true_ok rest (setKey acc k (.vDict m))
          · by_cases he : child = v
            · have hvd : v.isDict = false := by
                rcases not_both_dicts hdd with h | h
                · rw [← he]; exact h
                · exact h
              rw [dmd_cons_same true k v rest acc (he ▸ hl) hvd]
              exact deep_merge_true_ok rest acc
            · rw [dmd_cons_conflict_true k v child rest acc hl he (not_both_dicts hdd)]
              exact deep_merge_true_ok rest (setKey acc k v)
termination_by d _ => sizeOf d
decreasing_by all_goals simp_arith [*]

theorem deep_merge_into_fresh (allow : Bool) :
    ∀ (d acc : Dict), (∀ k ∈ d.map Prod.fst, alookup acc k = none) →
      (d.map Prod.fst).Nodup → deep_merge_dicts allow d acc = .ok (acc ++ d) := by
  intro d
  induction d with
  | nil =>
      intro acc _ _
      rw [dmd_nil]
      simp
  | cons hd tl ih =>
      obtain ⟨k, v⟩ := hd
      intro acc hfresh hnodup
      have hk : alookup acc k = none := hfresh k (by simp)
      rw [dmd_cons_none allow k v tl acc hk, setKey_eq_append acc k v hk]
      simp only [List.map_cons] at hnodup
      have hnotmem : k ∉ tl.map Prod.fst := (List.nodup_cons.mp hnodup).1
      have hnd : (tl.map Prod.fst).Nodup := (List.nodup_cons.mp hnodup).2
      have htl : ∀ k' ∈ tl.map Prod.fst, alookup (acc ++ [(k, v)]) k' = none := by
        intro k' hk'
        rw [alookup_append]
        have h1 : alookup acc k' = none := hfresh k' (by simp [hk'])
        have h2 : k ≠ k' := fun he => hnotmem (he ▸ hk')
        rw [h1]
        simp [alookup, h2]
      rw [ih (acc ++ [(k, v)]) htl hnd]
      simp

theorem deep_merge_conflict (k : String) (v1 v2 : Value)
    (hne : v1 ≠ v2) (hnd : v1.isDict = false ∨ v2.isDict = false) :
    ∀ (d2 acc : Dict), alookup acc k = some v1 → alookup d2 k = some v2 →
      ∃ e, deep_merge_dicts false d2 acc = .error e := by
  intro d2
  induction d2 with
  | nil =>
      intro acc h1 h2
      simp [alookup] at h2
  | cons hd rest ih =>
      obtain ⟨k', v'⟩ := hd
      intro acc h1 h2
      by_cases hk : k' = k
      · subst hk
        rw [alookup_cons_self] at h2
        injection h2 with h2
        subst h2
        exact ⟨.duplicateKey k', dmd_cons_conflict_err k' v' v1 rest acc h1 hne hnd⟩
      · have h2' : alookup rest k = some v2 := by rwa [alookup_cons_ne _ _ hk] at h2
        cases hl : alookup acc k' with
        | none =>
            rw [dmd_cons_none false k' v' rest acc hl]
            exact ih (setKey acc k' v')
              (by rw [alookup_setKey_ne acc _ hk]; exact h1) h2'
        | some child =>
            by_cases hdd : v'.isDict = true ∧ child.isDict = true
            · obtain ⟨vd, hv⟩ := (isDict_eq_true_iff v').mp hdd.1
              obtain ⟨dd, hc⟩ := (isDict_eq_true_iff child).mp hdd.2
              subst hv; subst hc
              cases hm : deep_merge_dicts false vd dd with
              | error e => exact ⟨e, dmd_cons_dict_err false k' vd dd rest acc e hl hm⟩
              | ok m =>
                  rw [dmd_cons_dict_ok false k' vd dd rest acc m hl hm]
                  exact ih (setKey acc k' (.vDict m))
                    (by rw [alookup_setKey_ne acc _ hk]; exact h1) h2'
            · by_cases he : child = v'
              · have hvd : v'.isDict = false := by
                  rcases not_both_dicts hdd with h | h
                  · rw [← he]; exact h
                  · exact h
                rw [dmd_cons_same false k' v' rest acc (he ▸ hl) hvd]
                exact ih acc h1 h2'
              · exact ⟨.duplicateKey k',
                  dmd_cons_conflict_err k' v' child rest acc hl he (not_both_dicts hdd)⟩

theorem except_bind_ok {α β : Type} (a : α) (f : α → Except ConfigError β) :
    (Except.ok a >>= f) = f a := rfl

theorem except_bind_err {α β : Type} (e : ConfigError) (f : α → Except ConfigError β) :
    (Except.error e >>= f) = .error e := rfl

/-! Claim theorems. -/

/-- C1 counterexample: a system-config directory with fragments
`a.json = {"cluster": "a"}` and `b.json = {"cluster": "b"}`.  The claim says
the fragments are merged in sorted order so that the lexicographically later
fragment's value survives; instead the load fails with a `DuplicateKeyError`
in either frozenset iteration order — no fragment's value survives. -/
theorem c1_conflicting_fragments_counterexample :
    parse_system_paasta_config c1ReadFile [("a.json", 0), ("b.json", 0)] "/etc/paasta"
      = .error (.duplicateKey "cluster")
    ∧ parse_system_paasta_config c1ReadFile [("b.json", 0), ("a.json", 0)] "/etc/paasta"
      = .error (.duplicateKey "cluster") := by
  constructor <;>
    simp [parse_system_paasta_config, parseSystemConfigLoop, c1ReadFile,
      deep_merge_dictionaries, deep_merge_dicts, alookup, setKey,
      except_bind_ok, except_bind_err]

/-- C1 (amended): the system config loader discovers exactly the readable
fragment files matching the glob, sorted lexicographically by full path; on
a cache miss it reads and merges the fragments with duplicate keys
disallowed and iterates them in unspecified (frozenset) order, so no
fragment's value survives a conflicting merge: two fragments that give the
same top-level key different (not both mapping) values make the load fail in
either iteration order, rather than the lexicographically later path
winning. -/
theorem c1_discovery_sorted_and_conflicting_fragments_fail :
    (∀ (glob : String) (walked : List WalkEntry),
      (get_readable_files_in_glob glob walked).Sorted (· ≤ ·)
      ∧ ∀ fn : String, fn ∈ get_readable_files_in_glob glob walked ↔
          ∃ e ∈ walked, e.path = fn ∧ e.isFile = true ∧ e.readable = true
            ∧ fnmatch fn glob = true)
    ∧ ∀ (readFile : String → Dict) (n1 n2 : String) (st1 st2 : Nat) (path k : String)
        (v1 v2 : Value),
        ((readFile n1).map Prod.fst).Nodup →
        ((readFile n2).map Prod.fst).Nodup →
        alookup (readFile n1) k = some v1 →
        alookup (readFile n2) k = some v2 →
        v1 ≠ v2 → (v1.isDict = false ∨ v2.isDict = false) →
        (∃ e, parse_system_paasta_config readFile [(n1, st1), (n2, st2)] path = .error e)
        ∧ (∃ e, parse_system_paasta_config readFile [(n2, st2), (n1, st1)] path
            = .error e) := by
  constructor
  · intro glob walked
    constructor
    · exact List.sorted_insertionSort _ _
    · intro fn
      simp only [get_readable_files_in_glob]
      rw [List.Perm.mem_iff (List.perm_insertionSort _ _)]
      simp only [List.mem_map, List.mem_filter, Bool.and_eq_true]
      constructor
      · rintro ⟨e, ⟨hmem, ⟨hfile, hread⟩, hmatch⟩, hpath⟩
        exact ⟨e, hmem, hpath, hfile, hread, hpath ▸ hmatch⟩
      · rintro ⟨e, hmem, hpath, hfile, hread, hmatch⟩
        exact ⟨e, ⟨hmem, ⟨hfile, hread⟩, hpath ▸ hmatch⟩, hpath⟩
  · intro readFile n1 n2 st1 st2 path k v1 v2 hnd1 hnd2 h1 h2 hne hdd
    have hm1 : deep_merge_dicts false (readFile n1) [] = .ok (readFile n1) := by
      simpa using deep_merge_into_fresh false (readFile n1) [] (fun k' _ => rfl) hnd1
    have hm2 : deep_merge_dicts false (readFile n2) [] = .ok (readFile n2) := by
      simpa using deep_merge_into_fresh false (readFile n2) [] (fun k' _ => rfl) hnd2
    obtain ⟨e12, he12⟩ :=
      deep_merge_conflict k v1 v2 hne hdd (readFile n2) (readFile n1) h1 h2
    obtain ⟨e21, he21⟩ :=
      deep_merge_conflict k v2 v1 (Ne.symm hne) hdd.symm (readFile n1) (readFile n2) h2 h1
    constructor
    · exact ⟨e12, by
        simp [parse_system_paasta_config, parseSystemConfigLoop,
          deep_merge_dictionaries, except_bind_ok, except_bind_err, hm1, he12]⟩
    · exact ⟨e21, by
        simp [parse_system_paasta_config, parseSystemConfigLoop,
          deep_merge_dictionaries, except_bind_ok, except_bind_err, hm2, he21]⟩

/-- C1 witness: the conflicting two-fragment directory instantiates the
general conflict statement. -/
theorem c1_discovery_sorted_and_conflicting_fragments_fail_witness :
    ((c1ReadFile "a.json").map Prod.fst).Nodup
    ∧ alookup (c1ReadFile "a.json") "cluster" = some (.vStr "a")
    ∧ alookup (c1ReadFile "b.json") "cluster" = some (.vStr "b")
    ∧ ((∃ e, parse_system_paasta_config c1ReadFile [("a.json", 0), ("b.json", 0)]
          "/etc/paasta" = .error e)
        ∧ (∃ e, parse_system_paasta_config c1ReadFile [("b.json", 0), ("a.json", 0)]
          "/etc/paasta" = .error e)) :=
  ⟨by decide, by decide, by decide,
    c1_discovery_sorted_and_conflicting_fragments_fail.2 c1ReadFile "a.json" "b.json"
      0 0 "/etc/paasta" "cluster" (.vStr "a") (.vStr "b")
      (by decide) (by decide) (by decide) (by decide) (by decide) (by decide)⟩

theorem load_syscfg_checks_of_ok (fs : PaastaFs) (path : String) (cache : SysCache)
    (v : SystemPaastaConfig) (c : SysCache) (b : Bool)
    (h : load_system_paasta_config fs path cache = (.ok v, c, b)) :
    fs.isdir path = true ∧ fs.readable path = true := by
  cases hd : fs.isdir path with
  | false => simp [load_system_paasta_config, hd] at h
  | true =>
      cases hr : fs.readable path with
      | false => simp [load_system_paasta_config, hd, hr] at h
      | true => exact ⟨rfl, rfl⟩

theorem load_syscfg_hit (fs : PaastaFs) (path : String) (cache : SysCache)
    (v : SystemPaastaConfig) (hd : fs.isdir path = true) (hr : fs.readable path = true)
    (hh : alookup cache (path, mkFileSetKey fs path) = some v) :
    load_system_paasta_config fs path cache = (.ok v, cache, false) := by
  simp [load_system_paasta_config, hd, hr, hh]

theorem load_syscfg_miss (fs : PaastaFs) (path : String) (cache : SysCache)
    (hd : fs.isdir path = true) (hr : fs.readable path = true)
    (hm : alookup cache (path, mkFileSetKey fs path) = none) :
    load_system_paasta_config fs path cache
      = (match parse_system_paasta_config (fun fn => fs.content fn (fs.stat fn))
          (mkFileSetKey fs path) path with
        | .ok v => (.ok v, ((path, mkFileSetKey fs path), v) :: cache, true)
        | .error e => (.error e, cache, true)) := by
  simp [load_system_paasta_config, hd, hr, hm]

theorem load_syscfg_ok_cases (fs : PaastaFs) (path : String) (cache : SysCache)
    (v : SystemPaastaConfig) (c : SysCache) (b : Bool)
    (h : load_system_paasta_config fs path cache = (.ok v, c, b)) :
    alookup c (path, mkFileSetKey fs path) = some v
    ∧ (c = cache ∨ c = ((path, mkFileSetKey fs path), v) :: cache) := by
  obtain ⟨hd, hr⟩ := load_syscfg_checks_of_ok fs path cache v c b h
  cases hh : alookup cache (path, mkFileSetKey fs path) with
  | some w =>
      rw [load_syscfg_hit fs path cache w hd hr hh] at h
      simp only [Prod.mk.injEq, Except.ok.injEq] at h
      obtain ⟨hv, hc, _⟩ := h
      subst hv; subst hc
      exact ⟨hh, Or.inl rfl⟩
  | none =>
      rw [load_syscfg_miss fs path cache hd hr hh] at h
      cases hp : parse_system_paasta_config (fun fn => fs.content fn (fs.stat fn))
          (mkFileSetKey fs path) path with
      | ok w =>
          rw [hp] at h
          simp only [Prod.mk.injEq, Except.ok.injEq] at h
          obtain ⟨hv, hc, _⟩ := h
          subst hv; subst hc
          exact ⟨alookup_cons_self _ _ _, Or.inr rfl⟩
      | error e =>
          rw [hp] at h
          simp at h

/-- C5: system-config cache coherency.  After a successful load, (i) a second
load observing the identical (path, stat) set returns the cached merged
result without reading any file content; (ii) once any discovered fragment's
stat signature changes, the next load misses the cache and re-parses the
current file contents (read flag true), even though (iii) the entry for the
previous FileSetKey remains cached.  `fs2` is any view of the filesystem
with the same directory tree but changed stat signatures. -/
theorem c5_cache_coherency (fs1 fs2 : PaastaFs) (path : String) (cache0 : SysCache)
    (v1 : SystemPaastaConfig) (c1 : SysCache) (b1 : Bool) (f : String)
    (hdir : fs2.isdir = fs1.isdir) (hread : fs2.readable = fs1.readable)
    (hwalk : fs2.walk = fs1.walk)
    (h1 : load_system_paasta_config fs1 path cache0 = (.ok v1, c1, b1))
    (hf : f ∈ systemConfigFiles fs1 path)
    (hst : fs2.stat f ≠ fs1.stat f)
    (h4 : alookup cache0 (path, mkFileSetKey fs2 path) = none) :
    load_system_paasta_config fs1 path c1 = (.ok v1, c1, false)
    ∧ load_system_paasta_config fs2 path c1
        = (match parse_system_paasta_config (fun fn => fs2.content fn (fs2.stat fn))
            (mkFileSetKey fs2 path) path with
          | .ok v => (.ok v, ((path, mkFileSetKey fs2 path), v) :: c1, true)
          | .error e => (.error e, c1, true))
    ∧ ∀ (r : Except ConfigError SystemPaastaConfig) (c : SysCache) (b : Bool),
        load_system_paasta_config fs2 path c1 = (r, c, b) →
        alookup c (path, mkFileSetKey fs1 path) = some v1 := by
  obtain ⟨hd1, hr1⟩ := load_syscfg_checks_of_ok fs1 path cache0 v1 c1 b1 h1
  obtain ⟨hlook, hcases⟩ := load_syscfg_ok_cases fs1 path cache0 v1 c1 b1 h1
  have hfiles : systemConfigFiles fs2 path = systemConfigFiles fs1 path := by
    simp [systemConfigFiles, hwalk]
  have hkne : mkFileSetKey fs2 path ≠ mkFileSetKey fs1 path := by
    intro he
    rw [mkFileSetKey, mkFileSetKey, hfiles] at he
    have hpt := map_eq_map_mem _ _ _ he f hf
    exact hst (congrArg Prod.snd hpt)
  have hk2ne : ((path, mkFileSetKey fs2 path) : String × List (String × Nat))
      ≠ (path, mkFileSetKey fs1 path) := by
    intro he
    exact hkne (congrArg Prod.snd he)
  have hc1k2 : alookup c1 (path, mkFileSetKey fs2 path) = none := by
    rcases hcases with hc | hc
    · rw [hc]; exact h4
    · rw [hc, alookup_cons_ne _ _ hk2ne.symm]; exact h4
  have hd2 : fs2.isdir path = true := by rw [hdir]; exact hd1
  have hr2 : fs2.readable path = true := by rw [hread]; exact hr1
  refine ⟨load_syscfg_hit fs1 path c1 v1 hd1 hr1 hlook, ?_, ?_⟩
  · exact load_syscfg_miss fs2 path c1 hd2 hr2 hc1k2
  · intro r c b hload
    rw [load_syscfg_miss fs2 path c1 hd2 hr2 hc1k2] at hload
    cases hp : parse_system_paasta_config (fun fn => fs2.content fn (fs2.stat fn))
        (mkFileSetKey fs2 path) path with
    | ok w =>
        rw [hp] at hload
        simp only [Prod.mk.injEq] at hload
        obtain ⟨_, hc, _⟩ := hload
        rw [← hc, alookup_cons_ne _ _ hk2ne]
        exact hlook
    | error e =>
        rw [hp] at hload
        simp only [Prod.mk.injEq] at hload
        obtain ⟨_, hc, _⟩ := hload
        rw [← hc]
        exact hlook

/-- C5 witness: a one-fragment directory, loaded once into an empty cache,
then observed again unchanged (cache hit, no read). -/
theorem c5_cache_coherency_witness :
    load_system_paasta_config c5SampleFs "/etc/paasta" []
      = (.ok ⟨[("cluster", .vStr "old")], "/etc/paasta"⟩,
         [(("/etc/paasta", [("a.json", 0)]),
           ⟨[("cluster", .vStr "old")], "/etc/paasta"⟩)], true)
    ∧ "a.json" ∈ systemConfigFiles c5SampleFs "/etc/paasta"
    ∧ c5SampleFs2.stat "a.json" ≠ c5SampleFs.stat "a.json"
    ∧ load_system_paasta_config c5SampleFs "/etc/paasta"
        [(("/etc/paasta", [("a.json", 0)]),
          ⟨[("cluster", .vStr "old")], "/etc/paasta"⟩)]
      = (.ok ⟨[("cluster", .vStr "old")], "/etc/paasta"⟩,
         [(("/etc/paasta", [("a.json", 0)]),
           ⟨[("cluster", .vStr "old")], "/etc/paasta"⟩)], false) := by
  have h1 : load_system_paasta_config c5SampleFs "/etc/paasta" []
      = (.ok ⟨[("cluster", .vStr "old")], "/etc/paasta"⟩,
         [(("/etc/paasta", [("a.json", 0)]),
           ⟨[("cluster", .vStr "old")], "/etc/paasta"⟩)], true) := by
    simp [load_system_paasta_config, c5SampleFs, mkFileSetKey, systemConfigFiles,
      get_readable_files_in_glob, fnmatch, fnmatchList, List.insertionSort,
      List.orderedInsert, alookup, parse_system_paasta_config, parseSystemConfigLoop,
      deep_merge_dictionaries, deep_merge_dicts, setKey, except_bind_ok, except_bind_err]
  have hf : "a.json" ∈ systemConfigFiles c5SampleFs "/etc/paasta" := by
    simp [systemConfigFiles, c5SampleFs, get_readable_files_in_glob, fnmatch,
      fnmatchList, List.insertionSort, List.orderedInsert]
  have hst : c5SampleFs2.stat "a.json" ≠ c5SampleFs.stat "a.json" := by decide
  exact ⟨h1, hf, hst,
    (c5_cache_coherency c5SampleFs c5SampleFs2 "/etc/paasta" []
      ⟨[("cluster", .vStr "old")], "/etc/paasta"⟩
      [(("/etc/paasta", [("a.json", 0)]),
        ⟨[("cluster", .vStr "old")], "/etc/paasta"⟩)]
      true "a.json" rfl rfl rfl h1 hf hst rfl).1⟩

theorem mergeUserAutoLoop_ok (auto : List (String × Dict)) :
    ∀ l, ∃ out, mergeUserAutoLoop auto l = .ok out := by
  intro l
  induction l with
  | nil => exact ⟨[], rfl⟩
  | cons hd tl ih =>
      obtain ⟨nm, user⟩ := hd
      obtain ⟨m, hm⟩ := deep_merge_true_ok user ((alookup auto nm).getD [])
      obtain ⟨out, hout⟩ := ih
      exact ⟨(nm, m) :: out, by
        simp [mergeUserAutoLoop, deep_merge_dictionaries, hm, hout,
          except_bind_ok, except_bind_err]⟩

theorem mergeUserAutoLoop_lookup (auto : List (String × Dict)) :
    ∀ (l : List (String × Dict)) (k : String) (u : Dict),
      alookup l k = some u →
      ∃ out r, mergeUserAutoLoop auto l = .ok out ∧ alookup out k = some r
        ∧ deep_merge_dicts true u ((alookup auto k).getD []) = .ok r := by
  intro l
  induction l with
  | nil =>
      intro k u h
      simp [alookup] at h
  | cons hd tl ih =>
      obtain ⟨nm, user⟩ := hd
      intro k u h
      by_cases hk : nm = k
      · subst hk
        rw [alookup_cons_self] at h
        injection h with h
        subst h
        obtain ⟨m, hm⟩ := deep_merge_true_ok user ((alookup auto nm).getD [])
        obtain ⟨out, hout⟩ := mergeUserAutoLoop_ok auto tl
        refine ⟨(nm, m) :: out, m, ?_, alookup_cons_self _ _ _, hm⟩
        simp [mergeUserAutoLoop, deep_merge_dictionaries, hm, hout,
          except_bind_ok, except_bind_err]
      · rw [alookup_cons_ne _ _ hk] at h
        obtain ⟨out, r, hout, hlook, hr⟩ := ih k u h
        obtain ⟨m, hm⟩ := deep_merge_true_ok user ((alookup auto nm).getD [])
        refine ⟨(nm, m) :: out, r, ?_, ?_, hr⟩
        · simp [mergeUserAutoLoop, deep_merge_dictionaries, hm, hout,
            except_bind_ok, except_bind_err]
        · rw [alookup_cons_ne _ _ hk]
          exact hlook

/-- C2: for every instance name that is a top-level key of the user config
file and does not start with the reserved prefix, the bulk resolver maps
that name to exactly the record the single-instance resolver returns for the
same arguments; when the shared auto-config read raises, both resolvers
raise the same error. -/
theorem c2_bulk_matches_single (syscfg : SystemPaastaConfig) (fs : SoaFs)
    (service instance_type cluster soa_dir inst : String) (ucfg : Dict)
    (hmem : alookup (fs.read_extra_service_information service
      (instance_type ++ "-" ++ cluster) soa_dir) inst = some ucfg)
    (hpre : pyStartsWith inst "_" = false) :
    (∃ merged r,
      load_service_instance_configs syscfg fs service instance_type cluster soa_dir
        = .ok merged
      ∧ alookup merged inst = some r
      ∧ load_service_instance_config syscfg fs service inst instance_type cluster soa_dir
        = .ok r)
    ∨ (∃ e,
      load_service_instance_configs syscfg fs service instance_type cluster soa_dir
        = .error e
      ∧ load_service_instance_config syscfg fs service inst instance_type cluster soa_dir
        = .error e) := by
  cases hauto : load_service_instance_auto_configs syscfg fs
      service instance_type cluster soa_dir with
  | error e =>
      right
      refine ⟨e, ?_, ?_⟩
      · simp [load_service_instance_configs, hauto, except_bind_err]
      · simp [load_service_instance_config, hpre, hmem, hauto, except_bind_err]
  | ok auto =>
      left
      have hfmem : alookup (filter_templates_from_config
          (fs.read_extra_service_information service
            (instance_type ++ "-" ++ cluster) soa_dir)) inst = some ucfg := by
        rw [alookup_filter_templates _ _ hpre]
        exact hmem
      obtain ⟨out, r, hout, hlook, hr⟩ := mergeUserAutoLoop_lookup auto _ inst ucfg hfmem
      refine ⟨out, r, ?_, hlook, ?_⟩
      · simp [load_service_instance_configs, hauto, hout, except_bind_ok]
      · simp [load_service_instance_config, hpre, hmem, hauto,
          deep_merge_dictionaries, hr, except_bind_ok]

/-- C2 witness: a file with a template entry and the instance `main`, with
the auto overlay enabled and populated. -/
theorem c2_bulk_matches_single_witness :
    alookup (c2SampleFs.read_extra_service_information "svc" ("web" ++ "-" ++ "pnw")
      "/soa") "main" = some [("cpus", .vInt 2)]
    ∧ pyStartsWith "main" "_" = false
    ∧ ((∃ merged r,
        load_service_instance_configs c2SampleSys c2SampleFs "svc" "web" "pnw" "/soa"
          = .ok merged
        ∧ alookup merged "main" = some r
        ∧ load_service_instance_config c2SampleSys c2SampleFs "svc" "main" "web" "pnw"
            "/soa" = .ok r)
      ∨ (∃ e,
        load_service_instance_configs c2SampleSys c2SampleFs "svc" "web" "pnw" "/soa"
          = .error e
        ∧ load_service_instance_config c2SampleSys c2SampleFs "svc" "main" "web" "pnw"
            "/soa" = .error e)) :=
  ⟨by decide, by decide,
    c2_bulk_matches_single c2SampleSys c2SampleFs "svc" "web" "pnw" "/soa" "main"
      [("cpus", .vInt 2)] (by decide) (by decide)⟩

/-- C3: with the instance type's auto-config feature flag absent or false,
the auto overlay is the empty mapping and the single-instance resolver's
output is independent of the auto-config file's contents: it equals the
output on any filesystem agreeing on the user config file (in particular one
with no auto-config file at all). -/
theorem c3_auto_overlay_disabled (syscfg : SystemPaastaConfig) (fs fs2 : SoaFs)
    (service inst instance_type cluster soa_dir : String) (em : List (String × Value))
    (hem : syscfg.get_auto_config_instance_types_enabled = .vDict em)
    (hflag : alookup em instance_type = none
      ∨ alookup em instance_type = some (.vBool false))
    (hagree : fs2.read_extra_service_information service
        (instance_type ++ "-" ++ cluster) soa_dir
      = fs.read_extra_service_information service
        (instance_type ++ "-" ++ cluster) soa_dir) :
    load_service_instance_auto_configs syscfg fs service instance_type cluster soa_dir
      = .ok []
    ∧ load_service_instance_config syscfg fs service inst instance_type cluster soa_dir
      = load_service_instance_config syscfg fs2 service inst instance_type cluster
          soa_dir := by
  have hauto : ∀ g : SoaFs,
      load_service_instance_auto_configs syscfg g service instance_type cluster soa_dir
        = .ok [] := by
    intro g
    rcases hflag with h | h <;>
      simp [load_service_instance_auto_configs, hem, lookupD, h, truthy]
  constructor
  · exact hauto fs
  · by_cases hpre : pyStartsWith inst "_"
    · simp [load_service_instance_config, hpre]
    · simp only [load_service_instance_config, hpre, Bool.false_eq_true, if_false,
        hagree, hauto fs, hauto fs2]

/-- C3 witness: the feature flag for `web` is false while the auto-config
file exists with conflicting content; the resolver output matches the run
with no auto-config file at all. -/
theorem c3_auto_overlay_disabled_witness :
    c3SampleSys.get_auto_config_instance_types_enabled
      = Value.vDict [("web", Value.vBool false)]
    ∧ alookup [("web", Value.vBool false)] "web" = some (Value.vBool false)
    ∧ c3SampleFsNoAuto.read_extra_service_information "svc" ("web" ++ "-" ++ "pnw") "/soa"
      = c3SampleFs.read_extra_service_information "svc" ("web" ++ "-" ++ "pnw") "/soa"
    ∧ (load_service_instance_auto_configs c3SampleSys c3SampleFs "svc" "web" "pnw" "/soa"
        = .ok []
      ∧ load_service_instance_config c3SampleSys c3SampleFs "svc" "main" "web" "pnw" "/soa"
        = load_service_instance_config c3SampleSys c3SampleFsNoAuto "svc" "main" "web"
            "pnw" "/soa") :=
  ⟨by decide, by decide, by decide,
    c3_auto_overlay_disabled c3SampleSys c3SampleFs c3SampleFsNoAuto "svc" "main" "web"
      "pnw" "/soa" [("web", .vBool false)] (by decide) (Or.inr (by decide)) (by decide)⟩

/-- C4: an instance name with the reserved prefix `_` makes the
single-instance resolver fail with an `InvalidInstanceNameError`
(`InvalidJobNameError` in the source), for any service, instance type and
cluster, and without reading any configuration content: the result does not
depend on the filesystem or on the system config at all. -/
theorem c4_reserved_prefix_rejected (syscfg : SystemPaastaConfig) (fs : SoaFs)
    (service inst instance_type cluster soa_dir : String)
    (h : pyStartsWith inst "_" = true) :
    load_service_instance_config syscfg fs service inst instance_type cluster soa_dir
      = .error (.invalidJobName ("Unable to load " ++ instance_type ++ " config for "
          ++ service ++ "." ++ inst ++ " as instance name starts with _"))
    ∧ ∀ (syscfg2 : SystemPaastaConfig) (fs2 : SoaFs),
        load_service_instance_config syscfg fs service inst instance_type cluster soa_dir
          = load_service_instance_config syscfg2 fs2 service inst instance_type cluster
              soa_dir := by
  constructor
  · simp [load_service_instance_config, h]
  · intro syscfg2 fs2
    simp [load_service_instance_config, h]

/-- C4 witness: the template entry `_template` is rejected. -/
theorem c4_reserved_prefix_rejected_witness :
    pyStartsWith "_template" "_" = true
    ∧ load_service_instance_config c2SampleSys c4SampleFs "svc" "_template" "web" "pnw"
        "/soa"
      = .error (.invalidJobName ("Unable to load " ++ "web" ++ " config for "
          ++ "svc" ++ "." ++ "_template" ++ " as instance name starts with _")) :=
  ⟨by decide,
    (c4_reserved_prefix_rejected c2SampleSys c4SampleFs "svc" "_template" "web" "pnw"
      "/soa" (by decide)).1⟩

theorem tronInstancePairs_eq (service : String) :
    ∀ l : List (String × Dict),
      (∀ p ∈ l, alookup p.2 "actions" = none
        ∨ ∃ d, alookup p.2 "actions" = some (.vDict d)) →
      tronInstancePairs service l
        = .ok (l.flatMap (fun p =>
            (tronActionKeys p.2).map (fun nm => (service, p.1 ++ "." ++ nm)))) := by
  intro l
  induction l with
  | nil => intro _; simp [tronInstancePairs]
  | cons hd tl ih =>
      obtain ⟨job_name, job⟩ := hd
      intro hall
      have hhd := hall (job_name, job) (by simp)
      have hact : tronJobActionNames job = .ok (tronActionKeys job) := by
        rcases hhd with h | ⟨d, h⟩ <;> simp [tronJobActionNames, tronActionKeys, h]
      have htl := ih (fun p hp => hall p (by simp [hp]))
      simp [tronInstancePairs, hact, htl, except_bind_ok]

/-- C6: enumeration of instance names first drops every top-level key
starting with `_`; for instance type `tron` it yields one
`(service, "job.action")` pair per action declared under each remaining job
entry, and for every other instance type one `(service, key)` pair per
remaining top-level key; in particular a file with top-level keys
`_template` and `main` enumerates exactly `main`. -/
theorem c6_instance_name_enumeration :
    (∀ (fs : SoaFs) (service instance_type cluster soa_dir : String),
      instance_type ≠ "tron" →
      read_service_instance_names fs service instance_type cluster soa_dir
        = .ok (((fs.read_extra_service_information service
            (instance_type ++ "-" ++ cluster) soa_dir).filter
              (fun kv => !(pyStartsWith kv.1 "_"))).map (fun kv => (service, kv.1))))
    ∧ (∀ (fs : SoaFs) (service cluster soa_dir : String),
      (∀ p ∈ filter_templates_from_config (fs.read_extra_service_information service
          ("tron" ++ "-" ++ cluster) soa_dir),
        alookup p.2 "actions" = none ∨ ∃ d, alookup p.2 "actions" = some (.vDict d)) →
      read_service_instance_names fs service "tron" cluster soa_dir
        = .ok ((filter_templates_from_config (fs.read_extra_service_information service
            ("tron" ++ "-" ++ cluster) soa_dir)).flatMap (fun p =>
              (tronActionKeys p.2).map (fun nm => (service, p.1 ++ "." ++ nm)))))
    ∧ read_service_instance_names c6SampleFs "svc" "web" "pnw" "/soa"
        = .ok [("svc", "main")] := by
  refine ⟨?_, ?_, by decide⟩
  · intro fs service instance_type cluster soa_dir hne
    simp [read_service_instance_names, hne, filter_templates_from_config]
  · intro fs service cluster soa_dir hall
    simp only [read_service_instance_names, if_pos rfl]
    exact tronInstancePairs_eq service _ hall

/-- C6 witness: the tron expansion on a concrete file with a template entry,
a two-action job and an action-less job. -/
theorem c6_instance_name_enumeration_witness :
    (∀ p ∈ filter_templates_from_config (c6TronFs.read_extra_service_information "svc"
        ("tron" ++ "-" ++ "pnw") "/soa"),
      alookup p.2 "actions" = none ∨ ∃ d, alookup p.2 "actions" = some (.vDict d))
    ∧ read_service_instance_names c6TronFs "svc" "tron" "pnw" "/soa"
        = .ok ((filter_templates_from_config (c6TronFs.read_extra_service_information
            "svc" ("tron" ++ "-" ++ "pnw") "/soa")).flatMap (fun p =>
              (tronActionKeys p.2).map (fun nm => ("svc", p.1 ++ "." ++ nm))))
    ∧ ("web" : String) ≠ "tron"
    ∧ read_service_instance_names c6SampleFs "svc" "web" "pnw" "/soa"
        = .ok (((c6SampleFs.read_extra_service_information "svc" ("web" ++ "-" ++ "pnw")
            "/soa").filter (fun kv => !(pyStartsWith kv.1 "_"))).map
              (fun kv => ("svc", kv.1))) := by
  have hall : ∀ p ∈ filter_templates_from_config
      (c6TronFs.read_extra_service_information "svc" ("tron" ++ "-" ++ "pnw") "/soa"),
      alookup p.2 "actions" = none ∨ ∃ d, alookup p.2 "actions" = some (.vDict d) := by
    intro p hp
    fin_cases hp
    · exact Or.inr ⟨[("run", .vDict []), ("clean", .vDict [])], by decide⟩
    · exact Or.inl (by decide)
  exact ⟨hall,
    (c6_instance_name_enumeration.2.1 c6TronFs "svc" "pnw" "/soa" hall),
    by decide,
    c6_instance_name_enumeration.1 c6SampleFs "svc" "web" "pnw" "/soa" (by decide)⟩

theorem pipelineStepNames_eq (names : List String) :
    pipelineStepNames (names.map (fun s => .vDict [("step", .vStr s)])) = .ok names := by
  induction names with
  | nil => simp [pipelineStepNames]
  | cons hd tl ih =>
      simp [pipelineStepNames, pipelineStepName, alookup, ih, except_bind_ok]

theorem listContainsSub_nil (l : List Char) : listContainsSub l [] = true := by
  cases l <;> simp [listContainsSub, List.isPrefixOf]

theorem isPrefixOf_append_self (l z : List Char) : l.isPrefixOf (l ++ z) = true := by
  induction l with
  | nil => simp [List.isPrefixOf]
  | cons hd tl ih => simp [List.isPrefixOf, ih]

theorem listContainsSub_append (x y z : List Char) :
    listContainsSub (x ++ (y ++ z)) y = true := by
  induction x with
  | nil =>
      cases y with
      | nil => simp [listContainsSub_nil]
      | cons hd tl =>
          have hp := isPrefixOf_append_self (hd :: tl) z
          simp only [List.cons_append] at hp
          simp only [List.nil_append, List.cons_append, listContainsSub,
            List.append_eq, hp, Bool.true_or]
  | cons hd tl ih =>
      simp only [List.cons_append, listContainsSub, List.append_eq] at ih ⊢
      rw [ih]
      simp

theorem strContainsSub_append (a s b : String) :
    strContainsSub (a ++ s ++ b) s = true := by
  obtain ⟨la⟩ := a
  obtain ⟨ls⟩ := s
  obtain ⟨lb⟩ := b
  show listContainsSub ((la ++ ls) ++ lb) ls = true
  rw [List.append_assoc]
  exact listContainsSub_append la ls lb

/-- C7: with a pipeline of `{step: string}` entries, the deploy_group check
passes exactly when the record's effective deploy group matches some
pipeline step that is a genuine deploy step (neither a predefined non-deploy
step nor prefixed `command-`); otherwise it fails with a message containing
the offending deploy group.  In particular, with the pipeline
`[{"step":"itest"},{"step":"prod.main"},{"step":"command-foo"}]`, a record
whose effective deploy group is `prod.main` passes and one whose effective
deploy group is `prod.canary` fails with a message naming `prod.canary`. -/
theorem c7_deploy_group_check :
    (∀ (fs : SoaFs) (c : InstanceConfig) (dg : String) (deployDict : Dict)
        (stepNames : List String),
      c.get_deploy_group = .vStr dg →
      lookupD (fs.read_service_configuration c.service c.soa_dir) "deploy" (.vDict [])
        = .vDict deployDict →
      lookupD deployDict "pipeline" (.vList [])
        = .vList (stepNames.map (fun s => .vDict [("step", .vStr s)])) →
      (c.check_deploy_group fs = .ok (true, "")
        ↔ ∃ s ∈ stepNames, dg = s ∧ is_deploy_step s = true)
      ∧ ((¬ ∃ s ∈ stepNames, dg = s ∧ is_deploy_step s = true) →
          c.check_deploy_group fs
            = .ok (false, c.service ++ "." ++ c.inst ++ " uses deploy_group " ++ dg
                ++ ", but it is not deploy.yaml")
          ∧ strContainsSub (c.service ++ "." ++ c.inst ++ " uses deploy_group " ++ dg
                ++ ", but it is not deploy.yaml") dg = true))
    ∧ c7MainConfig.check_deploy_group c7SampleFs = .ok (true, "")
    ∧ (c7CanaryConfig.check_deploy_group c7SampleFs
        = .ok (false,
            "svc.canary uses deploy_group prod.canary, but it is not deploy.yaml")
      ∧ strContainsSub
          "svc.canary uses deploy_group prod.canary, but it is not deploy.yaml"
          "prod.canary" = true) := by
  refine ⟨?_, by decide, by decide, by decide⟩
  intro fs c dg deployDict stepNames hdg hdep hpip
  have hgroups : get_pipeline_deploy_groups fs c.service c.soa_dir
      = .ok (stepNames.filter is_deploy_step) := by
    simp [get_pipeline_deploy_groups, get_pipeline_config, hdep, hpip,
      pipelineStepNames_eq, except_bind_ok]
  have hcheck : c.check_deploy_group fs
      = (if (stepNames.filter is_deploy_step).contains dg then .ok (true, "")
         else .ok (false, c.service ++ "." ++ c.inst ++ " uses deploy_group " ++ dg
            ++ ", but it is not deploy.yaml")) := by
    simp [InstanceConfig.check_deploy_group, hdg, hgroups, except_bind_ok, Value.pyStr]
  have hmemiff : (stepNames.filter is_deploy_step).contains dg = true
      ↔ ∃ s ∈ stepNames, dg = s ∧ is_deploy_step s = true := by
    constructor
    · intro h
      have hm : dg ∈ stepNames.filter is_deploy_step := by simpa using h
      exact ⟨dg, (List.mem_filter.mp hm).1, rfl, (List.mem_filter.mp hm).2⟩
    · rintro ⟨s, hs, rfl, hds⟩
      simpa using List.mem_filter.mpr ⟨hs, hds⟩
  constructor
  · rw [hcheck]
    by_cases hin : (stepNames.filter is_deploy_step).contains dg = true
    · rw [if_pos hin]
      exact ⟨fun _ => hmemiff.mp hin, fun _ => rfl⟩
    · rw [if_neg hin]
      constructor
      · intro h
        simp at h
      · intro hex
        exact absurd (hmemiff.mpr hex) hin
  · intro hnot
    have hin : ¬ (stepNames.filter is_deploy_step).contains dg = true :=
      fun h => hnot (hmemiff.mp h)
    exact ⟨by rw [hcheck, if_neg hin], strContainsSub_append _ dg _⟩

/-- C7 witness: the general characterization instantiated at the scenario's
pipeline and the `prod.canary` record. -/
theorem c7_deploy_group_check_witness :
    c7CanaryConfig.get_deploy_group = Value.vStr "prod.canary"
    ∧ lookupD (c7SampleFs.read_service_configuration c7CanaryConfig.service
        c7CanaryConfig.soa_dir) "deploy" (.vDict [])
      = .vDict [("pipeline", .vList
          [.vDict [("step", .vStr "itest")],
           .vDict [("step", .vStr "prod.main")],
           .vDict [("step", .vStr "command-foo")]])]
    ∧ ((c7CanaryConfig.check_deploy_group c7SampleFs = .ok (true, "")
        ↔ ∃ s ∈ ["itest", "prod.main", "command-foo"],
            ("prod.canary" : String) = s ∧ is_deploy_step s = true)
      ∧ ((¬ ∃ s ∈ ["itest", "prod.main", "command-foo"],
            ("prod.canary" : String) = s ∧ is_deploy_step s = true) →
          c7CanaryConfig.check_deploy_group c7SampleFs
            = .ok (false, c7CanaryConfig.service ++ "." ++ c7CanaryConfig.inst
                ++ " uses deploy_group " ++ "prod.canary"
                ++ ", but it is not deploy.yaml")
          ∧ strContainsSub (c7CanaryConfig.service ++ "." ++ c7CanaryConfig.inst
                ++ " uses deploy_group " ++ "prod.canary"
                ++ ", but it is not deploy.yaml") "prod.canary" = true)) :=
  ⟨by decide, by decide,
    c7_deploy_group_check.1 c7SampleFs c7CanaryConfig "prod.canary"
      [("pipeline", .vList
          [.vDict [("step", .vStr "itest")],
           .vDict [("step", .vStr "prod.main")],
           .vDict [("step", .vStr "command-foo")]])]
      ["itest", "prod.main", "command-foo"]
      (by decide) (by decide) (by decide)⟩

theorem validateGo_eq (c : InstanceConfig) (fs : SoaFs) :
    ∀ (params acc : List String),
      (∀ p ∈ params, ∃ b m, c.check fs p = .ok (b, m)) →
      validateGo c fs params acc
        = .ok (acc ++ params.filterMap (fun p =>
            match c.check fs p with
            | .ok (false, m) => some m
            | _ => none)) := by
  intro params
  induction params with
  | nil =>
      intro acc _
      simp [validateGo]
  | cons hd tl ih =>
      intro acc hall
      obtain ⟨b, m, hc⟩ := hall hd (by simp)
      have hall' : ∀ p ∈ tl, ∃ b m, c.check fs p = .ok (b, m) :=
        fun p hp => hall p (by simp [hp])
      cases b with
      | true =>
          rw [show validateGo c fs (hd :: tl) acc = validateGo c fs tl acc from by
            simp [validateGo, hc, except_bind_ok]]
          rw [ih acc hall']
          simp [List.filterMap_cons, hc]
      | false =>
          rw [show validateGo c fs (hd :: tl) acc = validateGo c fs tl (acc ++ [m]) from by
            simp [validateGo, hc, except_bind_ok]]
          rw [ih (acc ++ [m]) hall']
          simp [List.filterMap_cons, hc]

/-- C8: `validate` runs every requested check and collects, in request
order, the message of each failing check (it never stops at the first
failure), and a requested check name outside the supported set contributes a
descriptive unsupported-parameter failure rather than being silently
ignored. -/
theorem c8_validate_runs_all_checks :
    (∀ (c : InstanceConfig) (fs : SoaFs) (param : String),
      param ∉ supportedCheckParams →
      c.check fs param = .ok (false,
        "Your service config specifies \"" ++ param ++ "\", an unsupported parameter."))
    ∧ (∀ (c : InstanceConfig) (fs : SoaFs) (params : List String),
      (∀ p ∈ params, ∃ b m, c.check fs p = .ok (b, m)) →
      c.validate fs params = .ok (params.filterMap (fun p =>
        match c.check fs p with
        | .ok (false, m) => some m
        | _ => none))) := by
  constructor
  · intro c fs param hns
    simp only [supportedCheckParams, List.mem_cons, List.not_mem_nil, or_false,
      not_or] at hns
    obtain ⟨h1, h2, h3, h4, h5⟩ := hns
    simp [InstanceConfig.check, h1, h2, h3, h4, h5]
  · intro c fs params hall
    rw [InstanceConfig.validate, validateGo_eq c fs params [] hall]
    simp

/-- C8 witness: a record with two non-numeric resources validated with an
unknown check name in the middle: all three failures are collected in
request order. -/
theorem c8_validate_runs_all_checks_witness :
    ("bogus" : String) ∉ supportedCheckParams
    ∧ (∀ p ∈ (["cpus", "bogus", "mem"] : List String),
        ∃ b m, c8SampleConfig.check c8SampleFs p = .ok (b, m))
    ∧ c8SampleConfig.check c8SampleFs "bogus"
      = .ok (false, "Your service config specifies \"" ++ "bogus"
          ++ "\", an unsupported parameter.")
    ∧ c8SampleConfig.validate c8SampleFs ["cpus", "bogus", "mem"]
      = .ok ((["cpus", "bogus", "mem"] : List String).filterMap (fun p =>
          match c8SampleConfig.check c8SampleFs p with
          | .ok (false, m) => some m
          | _ => none)) := by
  have hall : ∀ p ∈ (["cpus", "bogus", "mem"] : List String),
      ∃ b m, c8SampleConfig.check c8SampleFs p = .ok (b, m) := by
    intro p hp
    fin_cases hp
    · exact ⟨false, "The specified cpus value \"lots\" is not a valid float or int.",
        by decide⟩
    · exact ⟨false, "Your service config specifies \"bogus\", an unsupported parameter.",
        by decide⟩
    · exact ⟨false, "The specified mem value \"many\" is not a valid float or int.",
        by decide⟩
  exact ⟨by decide, hall,
    c8_validate_runs_all_checks.1 c8SampleConfig c8SampleFs "bogus" (by decide),
    c8_validate_runs_all_checks.2 c8SampleConfig c8SampleFs ["cpus", "bogus", "mem"] hall⟩

/-- C9: `get_args` fails with an invalid-instance-config error exactly when
the config declares both a (non-null) `cmd` and (non-null) `args`; with no
`cmd` key it returns the declared `args`, defaulting to the empty list; with
a command set and no `args` key it returns `None`. -/
theorem c9_get_args_mutual_exclusion :
    ∀ c : InstanceConfig,
      ((∃ e, c.get_args = .error e)
        ↔ (lookupD c.config_dict "cmd" .vNull ≠ .vNull
            ∧ lookupD c.config_dict "args" .vNull ≠ .vNull))
      ∧ (alookup c.config_dict "cmd" = none →
          c.get_args = .ok (lookupD c.config_dict "args" (.vList [])))
      ∧ (lookupD c.config_dict "cmd" .vNull ≠ .vNull →
          alookup c.config_dict "args" = none →
          c.get_args = .ok .vNull) := by
  intro c
  by_cases hc : lookupD c.config_dict "cmd" .vNull = .vNull
  · have hga : c.get_args = .ok (lookupD c.config_dict "args" (.vList [])) := by
      simp [InstanceConfig.get_args, InstanceConfig.get_cmd, hc]
    refine ⟨?_, fun _ => hga, fun h1 _ => absurd hc h1⟩
    constructor
    · rintro ⟨e, he⟩
      rw [hga] at he
      exact absurd he (by simp)
    · rintro ⟨h1, _⟩
      exact absurd hc h1
  · by_cases ha : lookupD c.config_dict "args" .vNull = .vNull
    · have hga : c.get_args = .ok .vNull := by
        simp [InstanceConfig.get_args, InstanceConfig.get_cmd, hc, ha]
      refine ⟨?_, ?_, fun _ _ => hga⟩
      · constructor
        · rintro ⟨e, he⟩
          rw [hga] at he
          exact absurd he (by simp)
        · rintro ⟨_, h2⟩
          exact absurd ha h2
      · intro hcm
        exact absurd (by simp [lookupD, hcm]) hc
    · have hga : c.get_args = .error (.invalidInstanceConfig
          "Instance configuration can specify cmd or args, but not both.") := by
        simp [InstanceConfig.get_args, InstanceConfig.get_cmd, hc, ha]
      refine ⟨?_, ?_, ?_⟩
      · exact ⟨fun _ => ⟨hc, ha⟩, fun _ => ⟨_, hga⟩⟩
      · intro hcm
        exact absurd (by simp [lookupD, hcm]) hc
      · intro _ han
        exact absurd (by simp [lookupD, han]) ha

/-- C9 witness: a record declaring `args` but no `cmd` returns the declared
args. -/
theorem c9_get_args_mutual_exclusion_witness :
    alookup c9SampleConfig.config_dict "cmd" = none
    ∧ c9SampleConfig.get_args
      = .ok (lookupD c9SampleConfig.config_dict "args" (.vList [])) :=
  ⟨by decide, (c9_get_args_mutual_exclusion c9SampleConfig).2.1 (by decide)⟩

theorem string_mk_dot_append (a b : String) :
    String.mk (a.data ++ '.' :: b.data) = a ++ "." ++ b := by
  obtain ⟨la⟩ := a
  obtain ⟨lb⟩ := b
  show String.mk (la ++ '.' :: lb) = String.mk ((la ++ ['.']) ++ lb)
  have h : la ++ '.' :: lb = (la ++ ['.']) ++ lb := by simp
  rw [h]

theorem pyFormat_cluster_instance (cluster inst service : String) :
    pyFormat "{cluster}.{instance}"
      [("cluster", cluster), ("instance", inst), ("service", service)]
      = .ok (cluster ++ "." ++ inst) := by
  simp [pyFormat, pyFormatAux, pyFormatField, alookup, except_bind_ok]
  exact string_mk_dot_append cluster inst

/-- C10: constructing an `InstanceConfig` interpolates the `deploy_group`
value as a format string over the facts `{cluster, instance, service}`
before any accessor sees it, leaves every other key of the config dict
unchanged, and in particular a record built with deploy_group
`"{cluster}.{instance}"` reports the concrete `"<cluster>.<instance>"` from
`get_deploy_group`. -/
theorem c10_deploy_group_interpolation :
    (∀ (cluster inst service : String) (cfg : Dict) (bd : Option Dict)
        (soa_dir s t : String),
      alookup cfg "deploy_group" = some (.vStr s) →
      pyFormat s [("cluster", cluster), ("instance", inst), ("service", service)]
        = .ok t →
      ∃ ic, mkInstanceConfig cluster inst service cfg bd soa_dir = .ok ic
        ∧ alookup ic.config_dict "deploy_group" = some (.vStr t)
        ∧ (∀ k, k ≠ "deploy_group" → alookup ic.config_dict k = alookup cfg k)
        ∧ ic.get_deploy_group = .vStr t)
    ∧ (∀ (cluster inst service : String) (cfg : Dict) (bd : Option Dict)
        (soa_dir : String),
      alookup cfg "deploy_group" = some (.vStr "{cluster}.{instance}") →
      ∃ ic, mkInstanceConfig cluster inst service cfg bd soa_dir = .ok ic
        ∧ ic.get_deploy_group = .vStr (cluster ++ "." ++ inst)) := by
  have hgen : ∀ (cluster inst service : String) (cfg : Dict) (bd : Option Dict)
      (soa_dir s t : String),
      alookup cfg "deploy_group" = some (.vStr s) →
      pyFormat s [("cluster", cluster), ("instance", inst), ("service", service)]
        = .ok t →
      ∃ ic, mkInstanceConfig cluster inst service cfg bd soa_dir = .ok ic
        ∧ alookup ic.config_dict "deploy_group" = some (.vStr t)
        ∧ (∀ k, k ≠ "deploy_group" → alookup ic.config_dict k = alookup cfg k)
        ∧ ic.get_deploy_group = .vStr t := by
    intro cluster inst service cfg bd soa_dir s t hdg hfmt
    have hmk : mkInstanceConfig cluster inst service cfg bd soa_dir
        = .ok ⟨cluster, inst, service, setKey cfg "deploy_group" (.vStr t), bd, soa_dir,
            service ++ SPACER ++ inst⟩ := by
      simp [mkInstanceConfig, hdg, hfmt, except_bind_ok]
    refine ⟨_, hmk, alookup_setKey_self cfg "deploy_group" (.vStr t), ?_, ?_⟩
    · intro k hk
      exact alookup_setKey_ne cfg (.vStr t) (Ne.symm hk)
    · simp [InstanceConfig.get_deploy_group, lookupD,
        alookup_setKey_self cfg "deploy_group" (.vStr t)]
  refine ⟨hgen, ?_⟩
  intro cluster inst service cfg bd soa_dir hdg
  obtain ⟨ic, hmk, _, _, hget⟩ := hgen cluster inst service cfg bd soa_dir
    "{cluster}.{instance}" (cluster ++ "." ++ inst) hdg
    (pyFormat_cluster_instance cluster inst service)
  exact ⟨ic, hmk, hget⟩

/-- C10 witness: a record built with deploy_group `"{cluster}.{instance}"`
in cluster `pnw`, instance `main`. -/
theorem c10_deploy_group_interpolation_witness :
    alookup [("deploy_group", Value.vStr "{cluster}.{instance}"), ("cpus", Value.vInt 1)]
      "deploy_group" = some (.vStr "{cluster}.{instance}")
    ∧ ∃ ic, mkInstanceConfig "pnw" "main" "svc"
        [("deploy_group", Value.vStr "{cluster}.{instance}"), ("cpus", Value.vInt 1)]
        none "/soa" = .ok ic
      ∧ ic.get_deploy_group = .vStr ("pnw" ++ "." ++ "main") :=
  ⟨by decide,
    c10_deploy_group_interpolation.2 "pnw" "main" "svc"
      [("deploy_group", Value.vStr "{cluster}.{instance}"), ("cpus", Value.vInt 1)]
      none "/soa" (by decide)⟩
